import Mathlib

/-!
# Art Beacon captive portal: message store, request handlers and startup

A shallow embedding of `src/Art_Beacon V2/src/main.cpp` (ESP32 firmware).

* The two globals `uploadedTexts` / `textCount` become the record `Store`; every
  handler is a function from the current request, the device readings and the store
  to a response (and, for `handleUpload`, a new store).
* Arduino `String` values are Lean strings, `+=` is `++`, `String(n)` of a
  non-negative integer is its decimal rendering `toString n`.  The only use of
  `length()` is the test `length() > 0`, which does not depend on the unit of length.
* `textCount` is a C `int` that starts at `0` and is only ever incremented under the
  guard `textCount < 100`, so it is modelled by a natural number; no arithmetic on it
  can overflow.
* What the libraries do is taken from their documented behaviour: `WebServer` runs
  the first registered route that accepts the request and the `onNotFound` callback
  otherwise, `streamFile` answers with status 200, `SPIFFS.exists` tells whether a
  file of that exact path is stored.
* `millis()` and `WiFi.softAPgetStationNum()` are readings of the device, passed to
  the handlers in `Env`.  Output on the serial console is recorded only for `setup`.
-/

namespace ArtBeacon

/-! ## Requests, responses and device readings -/

/-- HTTP methods of the `WebServer` library (`HTTP_ANY` is the wildcard used by
    the two-argument `server.on`). -/
inductive HTTPMethod where
  | HTTP_ANY | HTTP_GET | HTTP_HEAD | HTTP_POST | HTTP_PUT | HTTP_PATCH | HTTP_DELETE | HTTP_OPTIONS
  deriving DecidableEq, Repr

/-- One parsed HTTP request as seen through `server.uri()`, `server.hasArg`
    and `server.arg`. -/
structure Request where
  method : HTTPMethod
  uri : String
  args : List (String × String)
  deriving DecidableEq, Repr

/-- Model of `server.hasArg(name)`. -/
def Request.hasArg (req : Request) (name : String) : Bool :=
  req.args.any (fun p => p.1 == name)

/-- Model of `server.arg(name)`: the value of the first argument with that name, the
    empty string when there is none. -/
def Request.arg (req : Request) (name : String) : String :=
  match req.args.find? (fun p => p.1 == name) with
  | some p => p.2
  | none => ""

/-- Device readings a handler can observe while it serves one request:
    `millis k` is the value returned by the `millis()` call of loop iteration `k`,
    `stationNum` is `WiFi.softAPgetStationNum()`, and `files` is the content of the
    SPIFFS filesystem as (path, content) pairs. -/
structure Env where
  millis : Nat → Nat
  stationNum : Nat
  files : List (String × String)

/-- What `server.send(code, contentType, body)` (or `server.streamFile`) emits. -/
structure Response where
  code : Nat
  contentType : String
  body : String
  deriving DecidableEq, Repr

/-! ## The message store -/

/-- The globals `String uploadedTexts[100]` and `int textCount`.  The array is a list
    that always has its hundred slots (`size_eq`). -/
structure Store where
  uploadedTexts : List String
  textCount : Nat
  size_eq : uploadedTexts.length = 100
  deriving DecidableEq

/-- The store right after reset: a hundred default-constructed (empty) strings and
    `textCount = 0`. -/
def Store.init : Store :=
  { uploadedTexts := List.replicate 100 "", textCount := 0,
    size_eq := List.length_replicate 100 "" }

/-- The stored messages in chronological order: slots `0 .. textCount - 1`. -/
def Store.messages (st : Store) : List String := st.uploadedTexts.take st.textCount

/-- The global `ssid`. -/
def ssid : String := "🎨 Art Beacon Portal"

/-! ## Handlers -/

/-- Page built by `getWebPage` (lines 284-336). -/
def getWebPage (env : Env) (st : Store) : String :=
  let html := "<!DOCTYPE html><html><head>"
  let html := html ++ "<title>🎨 Art Beacon Portal</title>"
  let html := html ++ "<meta name='viewport' content='width=device-width, initial-scale=1.0'>"
  let html := html ++ "<meta charset='UTF-8'>"
  let html := html ++ "<link rel='stylesheet' href='/style.css'>"
  let html := html ++ "<script>"
  let html := html ++ "function refreshStats()\x7bfetch('/api/texts').then(r=>r.json()).then(d=>\x7b"
  let html := html ++ "document.getElementById('connected').textContent=d.connected_devices;"
  let html := html ++ "document.getElementById('total').textContent=d.total;"
  let html := html ++ "\x7d);\x7d"
  let html := html ++ "setInterval(refreshStats,5000);"
  let html := html ++ "window.onload=refreshStats;"
  let html := html ++ "</script>"
  let html := html ++ "</head><body>"
  let html := html ++ "<div class='container'>"
  let html := html ++ "<header>"
  let html := html ++ "<h1>🎨 Art Beacon Portal</h1>"
  let html := html ++ "<p class='subtitle'>A digital message board for wandering souls</p>"
  let html := html ++ "</header>"
  let html := html ++ "<div class='portal-info'>"
  let html := html ++ "<div class='stat-box'>"
  let html := html ++ "<h3>📡 Live Stats</h3>"
  let html := html ++ ("<p>Connected: <span id='connected'>" ++ toString env.stationNum ++ "</span> travelers</p>")
  let html := html ++ ("<p>Messages: <span id='total'>" ++ toString st.textCount ++ "</span>/100</p>")
  let html := html ++ ("<p>Portal: <strong>" ++ ssid ++ "</strong></p>")
  let html := html ++ "</div></div>"
  let html := html ++ "<div class='message-form'>"
  let html := html ++ "<h2>✨ Leave Your Mark</h2>"
  let html := html ++ "<form method='POST' action='/upload' onsubmit='this.querySelector(\"input[type=submit]\").disabled=true;'>"
  let html := html ++ "<textarea name='textInput' rows='4' maxlength='500' "
  let html := html ++ "placeholder='Share your thoughts, art, poetry, or just say hello...' required></textarea>"
  let html := html ++ "<div class='form-footer'>"
  let html := html ++ "<small>Max 500 characters</small>"
  let html := html ++ "<input type='submit' value='📤 Share Message' class='button primary'>"
  let html := html ++ "</div></form></div>"
  let html := html ++ "<div class='action-buttons'>"
  let html := html ++ "<a href='/texts' class='button'>📜 View All Messages</a>"
  let html := html ++ "<a href='#' onclick='refreshStats(); return false;' class='button secondary'>🔄 Refresh</a>"
  let html := html ++ "</div>"
  let html := html ++ "<footer>"
  let html := html ++ "<p><small>Art Beacon Portal • A space for creative expression</small></p>"
  let html := html ++ "</footer>"
  let html := html ++ "</div></body></html>"

  html

/-- Handler `handleRoot` (lines 101-104). -/
def handleRoot (env : Env) (st : Store) : Response :=
  let html := getWebPage env st
  { code := 200, contentType := "text/html", body := html }

/-- Confirmation page assembled in the success branch of `handleUpload`
    (lines 116-132). -/
def uploadSuccessHTML : String :=
  let successHTML := "<!DOCTYPE html><html><head>"
  let successHTML := successHTML ++ "<title>✨ Message Shared - Art Beacon</title>"
  let successHTML := successHTML ++ "<meta name='viewport' content='width=device-width, initial-scale=1.0'>"
  let successHTML := successHTML ++ "<meta http-equiv='refresh' content='3;url=/'>"
  let successHTML := successHTML ++ "<link rel='stylesheet' href='/style.css'></head>"
  let successHTML := successHTML ++ "<body><div class='container'>"
  let successHTML := successHTML ++ "<header><h1>✨ Message Shared!</h1>"
  let successHTML := successHTML ++ "<p class='subtitle'>Your words have joined the digital constellation</p></header>"
  let successHTML := successHTML ++ "<div style='padding:40px;text-align:center;'>"
  let successHTML := successHTML ++ "<h2 style='color:var(--success);margin-bottom:20px;'>🎉 Success!</h2>"
  let successHTML := successHTML ++ "<p>Your message has been added to the portal.</p>"
  let successHTML := successHTML ++ "<p><small>Redirecting in 3 seconds...</small></p>"
  let successHTML := successHTML ++ "</div>"
  let successHTML := successHTML ++ "<div class='action-buttons'>"
  let successHTML := successHTML ++ "<a href='/' class='button primary'>🏠 Back to Portal</a> "
  let successHTML := successHTML ++ "<a href='/texts' class='button'>📜 View All Messages</a></div>"
  let successHTML := successHTML ++ "</div></body></html>"
  successHTML

/-- Handler `handleUpload` (lines 106-149). -/
def handleUpload (req : Request) (st : Store) : Store × Response :=
  if req.hasArg "textInput" then
    let newText := req.arg "textInput"
    if newText.length > 0 ∧ st.textCount < 100 then
      ({ uploadedTexts := st.uploadedTexts.set st.textCount newText,
         textCount := st.textCount + 1,
         size_eq := (List.length_set st.uploadedTexts st.textCount newText).trans st.size_eq },
       { code := 200, contentType := "text/html", body := uploadSuccessHTML })
    else
      (st, { code := 400, contentType := "text/html", body :=
        "<html><head><title>Upload Error</title><link rel='stylesheet' href='/style.css'></head>" ++
        "<body><div class='container'><h2>Upload Error</h2>" ++
        "<p>Text is empty or storage is full.</p>" ++
        "<a href='/' class='button'>Try Again</a></div></body></html>" })
  else
    (st, { code := 400, contentType := "text/html", body :=
      "<html><head><title>Upload Error</title><link rel='stylesheet' href='/style.css'></head>" ++
      "<body><div class='container'><h2>Upload Error</h2>" ++
      "<p>No text data received.</p>" ++
      "<a href='/' class='button'>Try Again</a></div></body></html>" })

/-- Opening part of the `/texts` page (lines 152-162). -/
def textListHead (st : Store) : String :=
  let html := "<!DOCTYPE html><html><head>"
  let html := html ++ "<title>📜 Messages - Art Beacon Portal</title>"
  let html := html ++ "<meta name='viewport' content='width=device-width, initial-scale=1.0'>"
  let html := html ++ "<meta charset='UTF-8'>"
  let html := html ++ "<link rel='stylesheet' href='/style.css'>"
  let html := html ++ "</head><body><div class='container'>"
  let html := html ++ "<header>"
  let html := html ++ "<h1>📜 Portal Messages</h1>"
  let html := html ++ ("<p class='subtitle'>Messages from fellow travelers • " ++ toString st.textCount ++ " total</p>")
  let html := html ++ "</header>"
  html

/-- Body of the loop of `handleTextList` (lines 175-180), run for index `i` on the
    page built so far. -/
def textListLoopBody (st : Store) (html : String) (i : Nat) : String :=
  let html := html ++ "<div class='text-item'>"
  let html := html ++ ("<h3>Message #" ++ toString (i + 1))
  let html := if i = st.textCount - 1 then html ++ " <span style='color:var(--accent);'>• Latest</span>" else html
  let html := html ++ "</h3>"
  let html := html ++ ("<p>\"" ++ st.uploadedTexts.getD i "" ++ "\"</p>")
  let html := html ++ "</div>"
  html

/-- Closing part of the `/texts` page (lines 185-194), appended to the page built
    so far. -/
def textListFoot (html : String) : String :=
  let html := html ++ "<div class='action-buttons'>"
  let html := html ++ "<a href='/' class='button primary'>✨ Add Your Message</a>"
  let html := html ++ "<a href='#' onclick='location.reload();' class='button secondary'>🔄 Refresh</a>"
  let html := html ++ "</div>"
  let html := html ++ "<footer>"
  let html := html ++ "<p><small>Art Beacon Portal • Connecting minds through words</small></p>"
  let html := html ++ "</footer>"
  let html := html ++ "</div></body></html>"
  html

/-- Handler `handleTextList` (lines 151-197).  The loop
    `for (int i = textCount - 1; i >= 0; i--)` visits `textCount - 1, ..., 0`. -/
def handleTextList (st : Store) : Response :=
  let html := textListHead st
  let html :=
    if st.textCount = 0 then
      let html := html ++ "<div style='padding:40px;text-align:center;color:#666;'>"
      let html := html ++ "<h2>🌟 Be the First!</h2>"
      let html := html ++ "<p>No messages yet. Share the first thought with the world!</p>"
      let html := html ++ "</div>"
      html
    else
      let html := html ++ "<div style='padding:25px;'>"
      let html := html ++ "<div class='text-list'>"
      let html := (List.range st.textCount).reverse.foldl (textListLoopBody st) html
      let html := html ++ "</div></div>"
      html
  let html := textListFoot html
  { code := 200, contentType := "text/html", body := html }

/-- Handler `handleCSS` (lines 199-246). -/
def handleCSS : Response :=
  let css := ":root\x7b--primary:#667eea;--secondary:#764ba2;--accent:#ff6b6b;--success:#51cf66;--text:#2c3e50;--bg:#f8f9fa;\x7d"
  let css := css ++ "*\x7bbox-sizing:border-box;margin:0;padding:0;\x7d"
  let css := css ++ "body\x7bfont-family:'SF Pro Display',-apple-system,BlinkMacSystemFont,'Segoe UI',Roboto,sans-serif;"
  let css := css ++ "background:linear-gradient(135deg,var(--primary) 0%,var(--secondary) 50%,var(--accent) 100%);"
  let css := css ++ "min-height:100vh;padding:10px;color:var(--text);animation:gradientShift 10s ease infinite;\x7d"
  let css := css ++ "@keyframes gradientShift\x7b0%,100%\x7bbackground-position:0% 50%;\x7d50%\x7bbackground-position:100% 50%;\x7d\x7d"
  let css := css ++ ".container\x7bmax-width:650px;margin:0 auto;background:rgba(255,255,255,0.95);"
  let css := css ++ "backdrop-filter:blur(10px);border-radius:20px;overflow:hidden;"
  let css := css ++ "box-shadow:0 20px 40px rgba(0,0,0,0.1);border:1px solid rgba(255,255,255,0.2);\x7d"
  let css := css ++ "header\x7bbackground:linear-gradient(135deg,var(--primary),var(--secondary));"
  let css := css ++ "color:white;padding:30px;text-align:center;\x7d"
  let css := css ++ "h1\x7bfont-size:2.5em;margin-bottom:10px;text-shadow:0 2px 4px rgba(0,0,0,0.3);\x7d"
  let css := css ++ ".subtitle\x7bfont-size:1.1em;opacity:0.9;font-weight:300;\x7d"
  let css := css ++ ".portal-info\x7bpadding:25px;background:var(--bg);\x7d"
  let css := css ++ ".stat-box\x7bbackground:white;padding:20px;border-radius:15px;"
  let css := css ++ "box-shadow:0 5px 15px rgba(0,0,0,0.08);border-left:4px solid var(--accent);\x7d"
  let css := css ++ ".stat-box h3\x7bcolor:var(--primary);margin-bottom:15px;font-size:1.2em;\x7d"
  let css := css ++ ".stat-box p\x7bmargin:8px 0;font-size:0.95em;\x7d"
  let css := css ++ ".stat-box span\x7bcolor:var(--accent);font-weight:bold;\x7d"
  let css := css ++ ".message-form\x7bpadding:25px;background:white;\x7d"
  let css := css ++ ".message-form h2\x7bcolor:var(--primary);margin-bottom:20px;text-align:center;\x7d"
  let css := css ++ "textarea\x7bwidth:100%;padding:15px;border:2px solid #e1e8ed;border-radius:12px;"
  let css := css ++ "font-size:16px;font-family:inherit;resize:vertical;min-height:120px;"
  let css := css ++ "transition:border-color 0.3s,box-shadow 0.3s;\x7d"
  let css := css ++ "textarea:focus\x7bborder-color:var(--primary);outline:none;"
  let css := css ++ "box-shadow:0 0 0 3px rgba(102,126,234,0.1);\x7d"
  let css := css ++ ".form-footer\x7bdisplay:flex;justify-content:space-between;align-items:center;margin-top:15px;\x7d"
  let css := css ++ ".button\x7bdisplay:inline-block;padding:12px 24px;background:var(--primary);"
  let css := css ++ "color:white;text-decoration:none;border:none;border-radius:8px;"
  let css := css ++ "cursor:pointer;font-size:16px;font-weight:500;transition:all 0.3s;"
  let css := css ++ "box-shadow:0 4px 12px rgba(102,126,234,0.3);\x7d"
  let css := css ++ ".button:hover\x7btransform:translateY(-2px);box-shadow:0 8px 20px rgba(102,126,234,0.4);\x7d"
  let css := css ++ ".button.primary\x7bbackground:var(--success);\x7d"
  let css := css ++ ".button.secondary\x7bbackground:var(--accent);\x7d"
  let css := css ++ ".action-buttons\x7bpadding:25px;display:flex;gap:15px;justify-content:center;\x7d"
  let css := css ++ ".text-list\x7bmargin:20px 0;\x7d"
  let css := css ++ ".text-item\x7bbackground:white;padding:20px;margin:15px 0;border-radius:12px;"
  let css := css ++ "border-left:4px solid var(--primary);box-shadow:0 3px 10px rgba(0,0,0,0.05);\x7d"
  let css := css ++ ".text-item h3\x7bmargin-bottom:10px;color:var(--primary);font-size:1.1em;\x7d"
  let css := css ++ ".text-item p\x7bline-height:1.6;color:var(--text);\x7d"
  let css := css ++ "footer\x7bpadding:20px;text-align:center;background:var(--bg);color:#666;\x7d"
  let css := css ++ "small\x7bfont-size:0.85em;color:#666;\x7d"
  let css := css ++ "@media (max-width:480px)\x7b.container\x7bmargin:5px;border-radius:15px;\x7d"
  let css := css ++ "header\x7bpadding:20px;\x7dh1\x7bfont-size:2em;\x7d.action-buttons\x7bflex-direction:column;\x7d\x7d"
  { code := 200, contentType := "text/css", body := css }

/-- Handler `handleNotFound` (lines 248-254); it is declared but never registered. -/
def handleNotFound : Response :=
  { code := 404, contentType := "text/html", body :=
    "<html><head><title>Page Not Found</title><link rel='stylesheet' href='/style.css'></head>" ++
    "<body><div class='container'><h2>404 - Page Not Found</h2>" ++
    "<p>The requested page was not found.</p>" ++
    "<a href='/' class='button'>Go Home</a></div></body></html>" }

/-- Handler `handleCaptivePortal` (lines 256-267). -/
def handleCaptivePortal : Response :=
  let redirectHTML := "<html><head>"
  let redirectHTML := redirectHTML ++ "<meta http-equiv='refresh' content='0; url=http://192.168.4.1/' />"
  let redirectHTML := redirectHTML ++ "<title>Art Beacon Portal</title></head>"
  let redirectHTML := redirectHTML ++ "<body style='font-family: Arial, sans-serif; text-align: center; margin-top: 50px;'>"
  let redirectHTML := redirectHTML ++ "<h2>🎨 Welcome to Art Beacon Portal!</h2>"
  let redirectHTML := redirectHTML ++ "<p>Redirecting you to the message portal...</p>"
  let redirectHTML := redirectHTML ++ "<p><a href='http://192.168.4.1/'>Click here if not redirected automatically</a></p>"
  let redirectHTML := redirectHTML ++ "</body></html>"
  { code := 200, contentType := "text/html", body := redirectHTML }

/-- Body of the loop of `handleAPI` (lines 273-276), run for index `i` on the JSON
    text built so far. -/
def apiLoopBody (env : Env) (st : Store) (json : String) (i : Nat) : String :=
  let json := if i > 0 then json ++ "," else json
  let json := json ++ ("\x7b\"id\":" ++ toString (i + 1) ++ ",")
  let json := json ++ ("\"text\":\"" ++ st.uploadedTexts.getD i "" ++ "\",")
  let json := json ++ ("\"timestamp\":\"" ++ toString (env.millis i) ++ "\"\x7d")
  json

/-- Handler `handleAPI` (lines 269-282).  The loop
    `for (int i = 0; i < textCount; i++)` visits `0, ..., textCount - 1`. -/
def handleAPI (env : Env) (st : Store) : Response :=
  let json := "\x7b\"texts\":["
  let json := (List.range st.textCount).foldl (apiLoopBody env st) json
  let json := json ++ ("],\"total\":" ++ toString st.textCount ++ ",")
  let json := json ++ ("\"connected_devices\":" ++ toString env.stationNum ++ "\x7d")
  { code := 200, contentType := "application/json", body := json }

/-! ## Static files -/

/-- Arduino `String::endsWith` for a non-empty argument: the last characters of `s`
    are those of `suffix`. -/
def endsWith (s suffix : String) : Bool := suffix.data.isSuffixOf s.data

/-- Function `getContentType` (lines 338-353). -/
def getContentType (req : Request) (filename : String) : String :=
  if req.hasArg "download" then "application/octet-stream"
  else if endsWith filename ".htm" then "text/html"
  else if endsWith filename ".html" then "text/html"
  else if endsWith filename ".css" then "text/css"
  else if endsWith filename ".js" then "application/javascript"
  else if endsWith filename ".png" then "image/png"
  else if endsWith filename ".gif" then "image/gif"
  else if endsWith filename ".jpg" then "image/jpeg"
  else if endsWith filename ".ico" then "image/x-icon"
  else if endsWith filename ".xml" then "text/xml"
  else if endsWith filename ".pdf" then "application/x-pdf"
  else if endsWith filename ".zip" then "application/x-zip"
  else if endsWith filename ".gz" then "application/x-gzip"
  else "text/plain"

/-- Model of `SPIFFS.exists(path)`. -/
def Env.fileExists (env : Env) (path : String) : Bool :=
  env.files.any (fun f => f.1 == path)

/-- Content of the file `SPIFFS.open(path, "r")` reads. -/
def Env.fileContent (env : Env) (path : String) : String :=
  match env.files.find? (fun f => f.1 == path) with
  | some f => f.2
  | none => ""

/-- Function `handleFileRead` (lines 355-371): `some r` when it returns `true` after
    streaming the file as response `r` (`server.streamFile` answers with status 200),
    `none` when it returns `false` and has sent nothing. -/
def handleFileRead (env : Env) (req : Request) (path : String) : Option Response :=
  let path := if endsWith path "/" then path ++ "index.html" else path
  let contentType := getContentType req path
  let pathWithGz := path ++ ".gz"
  if env.fileExists pathWithGz || env.fileExists path then
    let path := if env.fileExists pathWithGz then path ++ ".gz" else path
    some { code := 200, contentType := contentType, body := env.fileContent path }
  else
    none

/-! ## Routing -/

/-- The handlers `setup` registers with `server.on`: `handleRoot`, `handleUpload`,
    `handleTextList`, `handleAPI`, `handleCSS` and `handleCaptivePortal`. -/
inductive Handler where
  | root | upload | textList | api | css | captivePortal
  deriving DecidableEq, Repr

/-- One `server.on(uri, method, handler)` registration. -/
structure Route where
  uri : String
  method : HTTPMethod
  handler : Handler
  deriving DecidableEq, Repr

/-- The route table built by `setup` (lines 72-77), in registration order. -/
def routeTable : List Route :=
  [ { uri := "/", method := .HTTP_ANY, handler := .root },
    { uri := "/upload", method := .HTTP_POST, handler := .upload },
    { uri := "/texts", method := .HTTP_ANY, handler := .textList },
    { uri := "/api/texts", method := .HTTP_ANY, handler := .api },
    { uri := "/style.css", method := .HTTP_ANY, handler := .css },
    { uri := "/captive", method := .HTTP_ANY, handler := .captivePortal } ]

/-- A route accepts a request when the path is the same and the route was registered
    for every method or for the method of the request (`canHandle` of `WebServer`). -/
def Route.canHandle (r : Route) (req : Request) : Bool :=
  (r.method == .HTTP_ANY || r.method == req.method) && r.uri == req.uri

/-- Runs one registered handler. -/
def Handler.run (h : Handler) (env : Env) (req : Request) (st : Store) : Store × Response :=
  match h with
  | .root => (st, handleRoot env st)
  | .upload => handleUpload req st
  | .textList => (st, handleTextList st)
  | .api => (st, handleAPI env st)
  | .css => (st, handleCSS)
  | .captivePortal => (st, handleCaptivePortal)

/-- The `server.onNotFound` callback (lines 80-84). -/
def onNotFound (env : Env) (req : Request) : Response :=
  match handleFileRead env req req.uri with
  | some r => r
  | none => handleCaptivePortal

/-- One `server.handleClient()` that serves request `req`: the first matching route
    in registration order, else the not-found callback. -/
def dispatch (env : Env) (req : Request) (st : Store) : Store × Response :=
  match routeTable.find? (fun r => r.canHandle req) with
  | some r => r.handler.run env req st
  | none => (st, onNotFound env req)

/-- A served request together with the device readings at that moment. -/
structure Event where
  env : Env
  req : Request

/-- The store after serving the requests `evs` in order. -/
def run (st : Store) : List Event → Store
  | [] => st
  | e :: evs => run (dispatch e.env e.req st).1 evs

/-- A request the router hands to `handleUpload`. -/
def isUploadRequest (req : Request) : Bool :=
  req.uri == "/upload" && req.method == .HTTP_POST

/-- Number of upload requests among `evs` (served in order from store `st`) that were
    answered with status 200. -/
def successfulUploads (st : Store) : List Event → Nat
  | [] => 0
  | e :: evs =>
    (if isUploadRequest e.req && (dispatch e.env e.req st).2.code == 200 then 1 else 0)
      + successfulUploads (dispatch e.env e.req st).1 evs

/-! ## Startup -/

/-- What `setup` has brought up, and what it printed on the serial console. -/
structure Device where
  serialBegun : Bool
  spiffsMounted : Bool
  accessPointConfigured : Bool
  dnsStarted : Bool
  mdnsStarted : Bool
  routes : List Route
  notFoundRegistered : Bool
  serverBegun : Bool
  log : List String
  deriving DecidableEq, Repr

/-- The device before `setup` runs. -/
def Device.powerOn : Device :=
  { serialBegun := false, spiffsMounted := false, accessPointConfigured := false,
    dnsStarted := false, mdnsStarted := false, routes := [], notFoundRegistered := false,
    serverBegun := false, log := [] }

/-- Model of `Serial.print` / `Serial.println`. -/
def Device.println (d : Device) (msg : String) : Device :=
  { d with log := d.log ++ [msg] }

/-- Function `setup` (lines 37-89).  `spiffsOk` is the result of `SPIFFS.begin(true)`,
    `mdnsOk` the result of `MDNS.begin("artbeacon")`. -/
def setup (spiffsOk mdnsOk : Bool) : Device :=
  let d := { Device.powerOn with serialBegun := true }
  let d := d.println "🎨 Starting ESP32 Art Beacon Portal..."
  if !spiffsOk then
    let d := d.println "An Error has occurred while mounting SPIFFS"
    d
  else
    let d := { d with spiffsMounted := true }
    let d := { d with accessPointConfigured := true }
    let d := { d with dnsStarted := true }
    let d :=
      if !mdnsOk then d.println "Error setting up MDNS responder!"
      else { d with mdnsStarted := true }.println "mDNS responder started"
    let d := d.println "Art Beacon Portal Ready!"
    let d := d.println "Access Point: "
    let d := d.println ssid
    let d := d.println "IP address: "
    let d := d.println "192.168.4.1"
    let d := d.println "📱 Connect to see messages from fellow travelers!"
    let d := { d with routes := routeTable }
    let d := { d with notFoundRegistered := true }
    let d := { d with serverBegun := true }
    let d := d.println "✨ Web server and captive portal active!"
    d

/-- Readings of an idle device with an empty filesystem. -/
def Env.idle : Env := { millis := fun _ => 0, stationNum := 0, files := [] }

/-- The request the form of the home page submits for text `t`. -/
def uploadOf (t : String) : Request :=
  { method := .HTTP_POST, uri := "/upload", args := [("textInput", t)] }

/-! ## Structured views of the two listings

The handlers build their output by appending to one string.  The definitions below
name the fragment each loop iteration contributes, so that the listings can be
described entry by entry; `handleTextList_body` and `handleAPI_body` relate them to
the handlers. -/

/-- Fragment that one iteration of the loop of `handleTextList` appends for the
    message with display index `index` and text `text`; `latest` tells whether the
    "Latest" marker is attached. -/
def textItem (index : Nat) (latest : Bool) (text : String) : String :=
  "<div class='text-item'>" ++
  (("<h3>Message #" ++ toString index) ++
  ((if latest then " <span style='color:var(--accent);'>• Latest</span>" else "") ++
  ("</h3>" ++
  (("<p>\"" ++ text ++ "\"</p>") ++
  "</div>"))))

/-- One entry of the `/texts` listing: display index, marker flag, text. -/
structure ListingEntry where
  index : Nat
  latest : Bool
  text : String
  deriving DecidableEq, Repr

/-- Rendering of one listing entry. -/
def ListingEntry.render (e : ListingEntry) : String := textItem e.index e.latest e.text

/-- The entries of the `/texts` listing in page order: loop index `i` runs over
    `textCount - 1, ..., 0`, is displayed as `i + 1` and is marked when
    `i = textCount - 1`. -/
def listing (st : Store) : List ListingEntry :=
  (List.range st.textCount).reverse.map
    (fun i => { index := i + 1, latest := decide (i = st.textCount - 1),
                text := st.uploadedTexts.getD i "" })

/-- Part of the `/texts` page shown when there is no message (lines 165-168). -/
def textListEmptyNotice : String :=
  "<div style='padding:40px;text-align:center;color:#666;'>" ++
  ("<h2>🌟 Be the First!</h2>" ++
  ("<p>No messages yet. Share the first thought with the world!</p>" ++
  "</div>"))

/-- One object of the JSON `texts` array: the message at loop index `i`, with
    id `i + 1`. -/
def apiEntry (env : Env) (i : Nat) (text : String) : String :=
  ("\x7b\"id\":" ++ toString (i + 1) ++ ",") ++
  (("\"text\":\"" ++ text ++ "\",") ++
  ("\"timestamp\":\"" ++ toString (env.millis i) ++ "\"\x7d"))

/-- The objects of the JSON `texts` array, in order. -/
def apiEntries (env : Env) (st : Store) : List String :=
  (List.range st.textCount).map (fun i => apiEntry env i (st.uploadedTexts.getD i ""))

/-- JSON text that follows the `texts` array (lines 278-279). -/
def apiTail (env : Env) (total : Nat) : String :=
  ("],\"total\":" ++ toString total ++ ",") ++
  ("\"connected_devices\":" ++ toString env.stationNum ++ "\x7d")

/-- Text of a markup fragment that lies outside its `<...>` tags, which is what a
    browser displays for it; `inTag` tells whether the scan is inside a tag. -/
def visibleText : List Char → Bool → List Char
  | [], _ => []
  | c :: cs, inTag =>
    if c = '<' then visibleText cs true
    else if c = '>' then visibleText cs false
    else if inTag then visibleText cs true
    else c :: visibleText cs false

/-- The extension/type pairs `getContentType` tests, in its order. -/
def contentTypes : List (String × String) :=
  [ (".htm", "text/html"), (".html", "text/html"), (".css", "text/css"),
    (".js", "application/javascript"), (".png", "image/png"), (".gif", "image/gif"),
    (".jpg", "image/jpeg"), (".ico", "image/x-icon"), (".xml", "text/xml"),
    (".pdf", "application/x-pdf"), (".zip", "application/x-zip"),
    (".gz", "application/x-gzip") ]

/-- The extensions the specification lists for static files; `.htm` is not among
    them. -/
def listedExtensions : List String :=
  [".html", ".css", ".js", ".png", ".gif", ".jpg", ".ico", ".xml", ".pdf", ".zip", ".gz"]

/-- The path `handleFileRead` looks up for a request path (line 357): a path ending in
    "/" stands for its `index.html`. -/
def servedPath (path : String) : String :=
  if endsWith path "/" then path ++ "index.html" else path

/-! ## Well-formed JSON texts

A recogniser for the JSON grammar of RFC 8259, used to say what it means for the
`/api/texts` body to be (or not to be) a JSON document.  It is not part of the
firmware. -/

/-- JSON whitespace. -/
def isJsonWs (c : Char) : Bool := c == ' ' || c == '\t' || c == '\n' || c == '\r'

/-- Drops leading JSON whitespace. -/
def skipWs : List Char → List Char
  | [] => []
  | c :: cs => if isJsonWs c then skipWs cs else c :: cs

/-- Hexadecimal digit. -/
def isHexDigit (c : Char) : Bool :=
  c.isDigit || (c.toNat ≥ 97 && c.toNat ≤ 102) || (c.toNat ≥ 65 && c.toNat ≤ 70)

/-- Scans a JSON string literal from just after its opening quote and returns what
    follows its closing quote; `none` when the literal is malformed or unterminated. -/
def scanString : List Char → Option (List Char)
  | [] => none
  | c :: cs =>
    if c = '"' then some cs
    else if c = '\\' then
      match cs with
      | [] => none
      | e :: cs1 =>
        if e = '"' ∨ e = '\\' ∨ e = '/' ∨ e = 'b' ∨ e = 'f' ∨ e = 'n' ∨ e = 'r' ∨ e = 't' then
          scanString cs1
        else if e = 'u' then
          match cs1 with
          | h1 :: h2 :: h3 :: h4 :: cs2 =>
            if isHexDigit h1 && isHexDigit h2 && isHexDigit h3 && isHexDigit h4 then
              scanString cs2
            else none
          | _ => none
        else none
    else if c.toNat < 32 then none
    else scanString cs

/-- Drops leading decimal digits. -/
def skipDigits : List Char → List Char
  | [] => []
  | c :: cs => if c.isDigit then skipDigits cs else c :: cs

/-- Scans the optional fraction and exponent of a JSON number. -/
def scanFracExp (cs : List Char) : Option (List Char) :=
  let afterFrac : Option (List Char) :=
    match cs with
    | c :: r =>
      if c = '.' then
        match r with
        | d :: r1 => if d.isDigit then some (skipDigits r1) else none
        | [] => none
      else some cs
    | [] => some []
  match afterFrac with
  | none => none
  | some [] => some []
  | some (e :: r) =>
    if e = 'e' ∨ e = 'E' then
      let r1 := match r with
        | s :: r2 => if s = '+' ∨ s = '-' then r2 else r
        | [] => []
      match r1 with
      | d :: r3 => if d.isDigit then some (skipDigits r3) else none
      | [] => none
    else some (e :: r)

/-- Scans a JSON number. -/
def scanNumber (cs : List Char) : Option (List Char) :=
  let cs1 := match cs with
    | c :: r => if c = '-' then r else cs
    | [] => []
  match cs1 with
  | [] => none
  | d :: r =>
    if d = '0' then scanFracExp r
    else if d.isDigit then scanFracExp (skipDigits r)
    else none

/-- Drops the literal `lit` from the front of the input. -/
def dropLiteral (lit : List Char) (cs : List Char) : Option (List Char) :=
  if lit.isPrefixOf cs then some (cs.drop lit.length) else none

/-- What `scanJson` is asked to scan: one value, the members of an object up to its
    closing brace, or the elements of an array up to its closing bracket. -/
inductive JsonPart where
  | value | members | elements
  deriving DecidableEq, Repr

/-- Scans one part of a JSON text and returns the rest of the input; `fuel` bounds the
    number of nested or chained parts. -/
def scanJson : Nat → JsonPart → List Char → Option (List Char)
  | 0, _, _ => none
  | fuel + 1, .value, cs =>
    match cs with
    | [] => none
    | c :: r =>
      if c = '"' then scanString r
      else if c = '\x7b' then
        match skipWs r with
        | [] => none
        | d :: r1 => if d = '\x7d' then some r1 else scanJson fuel .members (d :: r1)
      else if c = '[' then
        match skipWs r with
        | [] => none
        | d :: r1 => if d = ']' then some r1 else scanJson fuel .elements (d :: r1)
      else if c = 't' then dropLiteral ['r', 'u', 'e'] r
      else if c = 'f' then dropLiteral ['a', 'l', 's', 'e'] r
      else if c = 'n' then dropLiteral ['u', 'l', 'l'] r
      else scanNumber cs
  | fuel + 1, .members, cs =>
    match cs with
    | [] => none
    | q :: r =>
      if q = '"' then
        match scanString r with
        | none => none
        | some r1 =>
          match skipWs r1 with
          | [] => none
          | colon :: r2 =>
            if colon = ':' then
              match scanJson fuel .value (skipWs r2) with
              | none => none
              | some r3 =>
                match skipWs r3 with
                | [] => none
                | d :: r4 =>
                  if d = ',' then scanJson fuel .members (skipWs r4)
                  else if d = '\x7d' then some r4
                  else none
            else none
      else none
  | fuel + 1, .elements, cs =>
    match scanJson fuel .value cs with
    | none => none
    | some r1 =>
      match skipWs r1 with
      | [] => none
      | d :: r2 =>
        if d = ',' then scanJson fuel .elements (skipWs r2)
        else if d = ']' then some r2
        else none

/-- The string is one JSON value, surrounded by optional whitespace, when scanned
    with the given fuel. -/
def isJsonWithFuel (fuel : Nat) (s : String) : Bool :=
  match scanJson fuel .value (skipWs s.data) with
  | none => false
  | some rest => (skipWs rest).isEmpty

/-- The string is a well-formed JSON text.  Fuel is taken from its length: every part
    consumes at least one character before it asks for another part. -/
def isJson (s : String) : Bool := isJsonWithFuel (s.length + 1) s

/-- Counts the elements of a JSON array, scanning from the start of its first element
    up to the closing bracket; `fuel` bounds the number of elements. -/
def countElements : Nat → List Char → Option Nat
  | 0, _ => none
  | fuel + 1, cs =>
    match scanJson (cs.length + 1) .value cs with
    | none => none
    | some r =>
      match skipWs r with
      | [] => none
      | d :: r1 =>
        if d = ',' then (countElements fuel (skipWs r1)).map (fun n => n + 1)
        else if d = ']' then some 1
        else none

/-- Number of entries of the `texts` array as a JSON parser reads it from a document
    that opens with the member `"texts":[`; `none` when the document does not open so or
    the array is malformed. -/
def textsArrayLength (body : String) : Option Nat :=
  if "\x7b\"texts\":[".data.isPrefixOf body.data then
    match skipWs (body.data.drop 10) with
    | [] => none
    | d :: r => if d = ']' then some 0 else countElements body.length (d :: r)
  else none

/-- A text that can stand between the quotes of a JSON string literal as it is: no
    double quote, no backslash, no control character. -/
def isPlainText (t : String) : Bool :=
  t.data.all (fun c => c != '"' && c != '\\' && decide (32 ≤ c.toNat))

/-! ## Auxiliary lemmas -/

theorem length_pos_iff_ne_empty (s : String) : s.length > 0 ↔ s ≠ "" := by
  constructor
  · intro h e
    subst e
    simp at h
  · intro h
    rcases s with ⟨l⟩
    cases l with
    | nil => exact absurd rfl h
    | cons a l => simp [String.length]

theorem foldl_append_eq_join (f : Nat → String) (l : List Nat) (acc : String) :
    l.foldl (fun a i => a ++ f i) acc = acc ++ String.join (l.map f) := by
  induction l generalizing acc with
  | nil => simp [String.join]
  | cons x xs ih =>
    simp only [List.foldl_cons, List.map_cons]
    rw [ih]
    have hj : String.join (f x :: List.map f xs) = f x ++ String.join (List.map f xs) := by
      apply String.ext
      simp [String.data_join]
    rw [hj, String.append_assoc]

theorem textListLoopBody_eq (st : Store) (html : String) (i : Nat) :
    textListLoopBody st html i =
      html ++ textItem (i + 1) (decide (i = st.textCount - 1)) (st.uploadedTexts.getD i "") := by
  unfold textListLoopBody textItem
  by_cases h : i = st.textCount - 1
  · simp only [h, if_true, decide_True, String.append_assoc]
  · simp only [h, if_false, decide_False, String.append_assoc, String.empty_append,
      Bool.false_eq_true]

theorem textListFoot_eq (html : String) : textListFoot html = html ++ textListFoot "" := by
  simp only [textListFoot, String.append_assoc, String.empty_append]

/-- The `/texts` page, entry by entry. -/
theorem handleTextList_body (st : Store) :
    (handleTextList st).body =
      textListHead st ++
      ((if st.textCount = 0 then textListEmptyNotice
        else "<div style='padding:25px;'>" ++ ("<div class='text-list'>" ++
          (String.join ((listing st).map ListingEntry.render) ++ "</div></div>"))) ++
      textListFoot "") := by
  unfold handleTextList
  by_cases h : st.textCount = 0
  · simp only [h, if_true]
    rw [textListFoot_eq]
    simp only [textListEmptyNotice, String.append_assoc]
  · simp only [h, if_false]
    rw [textListFoot_eq]
    have hl : textListLoopBody st =
        fun a i => a ++ textItem (i + 1) (decide (i = st.textCount - 1))
          (st.uploadedTexts.getD i "") := by
      funext a i
      exact textListLoopBody_eq st a i
    rw [hl, foldl_append_eq_join]
    simp only [listing, ListingEntry.render, String.append_assoc, List.map_map,
      Function.comp_def]

theorem intercalate_go_snoc (sep x : String) (l : List String) (acc : String) :
    String.intercalate.go acc sep (l ++ [x]) = String.intercalate.go acc sep l ++ sep ++ x := by
  induction l generalizing acc with
  | nil => simp [String.intercalate.go]
  | cons a l ih =>
    simp only [List.cons_append, String.intercalate.go]
    exact ih _

theorem intercalate_snoc (sep x a : String) (l : List String) :
    sep.intercalate ((a :: l) ++ [x]) = sep.intercalate (a :: l) ++ sep ++ x := by
  simp only [String.intercalate, List.cons_append]
  exact intercalate_go_snoc sep x l a

theorem apiLoopBody_eq (env : Env) (st : Store) (json : String) (i : Nat) :
    apiLoopBody env st json i =
      (if i > 0 then json ++ "," else json) ++ apiEntry env i (st.uploadedTexts.getD i "") := by
  simp only [apiLoopBody, apiEntry, String.append_assoc]

theorem apiLoop_eq (env : Env) (st : Store) (n : Nat) (json : String) :
    (List.range n).foldl (apiLoopBody env st) json =
      json ++ ",".intercalate
        ((List.range n).map (fun i => apiEntry env i (st.uploadedTexts.getD i ""))) := by
  induction n with
  | zero => simp [String.intercalate]
  | succ n ih =>
    rw [List.range_succ, List.foldl_append, ih, List.map_append]
    simp only [List.foldl_cons, List.foldl_nil, List.map_cons, List.map_nil]
    rw [apiLoopBody_eq]
    cases n with
    | zero => simp [String.intercalate, String.intercalate.go]
    | succ m =>
      have hne : ∃ a l, (List.range (m + 1)).map
          (fun i => apiEntry env i (st.uploadedTexts.getD i "")) = a :: l := by
        rw [List.range_succ_eq_map]
        exact ⟨_, _, rfl⟩
      obtain ⟨a, l, hal⟩ := hne
      rw [hal, intercalate_snoc]
      simp only [Nat.succ_pos, if_true, gt_iff_lt, String.append_assoc]

/-- The `/api/texts` document, entry by entry. -/
theorem handleAPI_body (env : Env) (st : Store) :
    (handleAPI env st).body =
      "\x7b\"texts\":[" ++ (",".intercalate (apiEntries env st) ++ apiTail env st.textCount) := by
  simp only [handleAPI, apiLoop_eq, apiEntries, apiTail, String.append_assoc]

theorem take_set_self (l : List String) (n : Nat) (t : String) :
    (l.set n t).take n = l.take n := by
  rw [List.set_take]
  apply List.set_eq_of_length_le
  simp

theorem take_succ_set (l : List String) (n : Nat) (t : String) (h : n < l.length) :
    (l.set n t).take (n + 1) = l.take n ++ [t] := by
  rw [List.take_succ, take_set_self, List.getElem?_set_self h]
  rfl

theorem getD_set_of_ne (l : List String) (n i : Nat) (t : String) (h : i ≠ n) :
    (l.set n t).getD i "" = l.getD i "" := by
  simp only [List.getD_eq_getElem?_getD]
  rw [List.getElem?_set_ne (Ne.symm h)]

theorem getD_set_self (l : List String) (n : Nat) (t : String) (h : n < l.length) :
    (l.set n t).getD n "" = t := by
  simp only [List.getD_eq_getElem?_getD]
  rw [List.getElem?_set_self h]
  rfl

/-- What a successful upload answers and does to the store. -/
theorem handleUpload_accept (req : Request) (st : Store)
    (harg : req.hasArg "textInput" = true) (hne : req.arg "textInput" ≠ "")
    (hcount : st.textCount < 100) :
    (handleUpload req st).2 =
      { code := 200, contentType := "text/html", body := uploadSuccessHTML } ∧
    (handleUpload req st).1.uploadedTexts =
      st.uploadedTexts.set st.textCount (req.arg "textInput") ∧
    (handleUpload req st).1.textCount = st.textCount + 1 := by
  have hlen : (req.arg "textInput").length > 0 := (length_pos_iff_ne_empty _).2 hne
  unfold handleUpload
  simp only [harg, if_true]
  rw [if_pos ⟨hlen, hcount⟩]
  exact ⟨rfl, rfl, rfl⟩

/-! ### Routing and runs -/

theorem isUploadRequest_iff (req : Request) :
    isUploadRequest req = true ↔ req.uri = "/upload" ∧ req.method = .HTTP_POST := by
  simp [isUploadRequest]

/-- An upload request is routed to `handleUpload`. -/
theorem dispatch_upload (env : Env) (req : Request) (st : Store)
    (h : isUploadRequest req = true) : dispatch env req st = handleUpload req st := by
  obtain ⟨hu, hm⟩ := (isUploadRequest_iff req).1 h
  simp [dispatch, routeTable, List.find?, Route.canHandle, hu, hm, Handler.run]

/-- Every other request leaves the store alone. -/
theorem dispatch_other (env : Env) (req : Request) (st : Store)
    (h : isUploadRequest req = false) : (dispatch env req st).1 = st := by
  unfold dispatch
  cases hfind : routeTable.find? (fun r => r.canHandle req) with
  | none => rfl
  | some r =>
    have hmem : r ∈ routeTable := List.mem_of_find?_eq_some hfind
    have hcan : r.canHandle req = true := by
      have := List.find?_some hfind
      simpa using this
    simp only [routeTable, List.mem_cons, List.mem_singleton, List.not_mem_nil, or_false] at hmem
    rcases hmem with rfl | rfl | rfl | rfl | rfl | rfl
    · rfl
    · exfalso
      have hup : isUploadRequest req = true := by
        simp [Route.canHandle] at hcan
        simp [isUploadRequest, hcan.1.symm, hcan.2.symm]
      rw [h] at hup
      exact Bool.false_ne_true hup
    · rfl
    · rfl
    · rfl
    · rfl

theorem dispatch_textCount (env : Env) (req : Request) (st : Store) :
    (dispatch env req st).1.textCount =
      st.textCount +
        (if isUploadRequest req && (dispatch env req st).2.code == 200 then 1 else 0) := by
  cases hup : isUploadRequest req with
  | false => simp [dispatch_other env req st hup]
  | true =>
    rw [dispatch_upload env req st hup]
    unfold handleUpload
    by_cases h1 : req.hasArg "textInput" = true
    · by_cases h2 : (req.arg "textInput").length > 0 ∧ st.textCount < 100
      · simp [h1, h2]
      · simp [h1, h2]
    · simp [h1]

theorem dispatch_textCount_le (env : Env) (req : Request) (st : Store)
    (h : st.textCount ≤ 100) : (dispatch env req st).1.textCount ≤ 100 := by
  cases hup : isUploadRequest req with
  | false => rw [dispatch_other env req st hup]; exact h
  | true =>
    rw [dispatch_upload env req st hup]
    unfold handleUpload
    by_cases h1 : req.hasArg "textInput" = true
    · by_cases h2 : (req.arg "textInput").length > 0 ∧ st.textCount < 100
      · simp only [h1, h2, if_true, and_self]
        exact h2.2
      · simp [h1, h2, h]
    · simp [h1, h]

theorem run_textCount_le (evs : List Event) (st : Store) (h : st.textCount ≤ 100) :
    (run st evs).textCount ≤ 100 := by
  induction evs generalizing st with
  | nil => exact h
  | cons e evs ih => exact ih _ (dispatch_textCount_le e.env e.req st h)

theorem run_textCount (evs : List Event) (st : Store) :
    (run st evs).textCount = st.textCount + successfulUploads st evs := by
  induction evs generalizing st with
  | nil => rfl
  | cons e evs ih =>
    simp only [run, successfulUploads]
    rw [ih, dispatch_textCount e.env e.req st, Nat.add_assoc]

/-- A full store rejects every upload. -/
theorem handleUpload_full (req : Request) (st : Store) (h : st.textCount = 100) :
    (handleUpload req st).2.code = 400 ∧ (handleUpload req st).1 = st := by
  unfold handleUpload
  by_cases h1 : req.hasArg "textInput" = true
  · simp [h1, h]
  · simp [h1]

theorem dispatch_texts (env : Env) (req : Request) (st : Store) (h : req.uri = "/texts") :
    dispatch env req st = (st, handleTextList st) := by
  simp [dispatch, routeTable, List.find?, Route.canHandle, h, Handler.run]

theorem dispatch_api (env : Env) (req : Request) (st : Store) (h : req.uri = "/api/texts") :
    dispatch env req st = (st, handleAPI env st) := by
  simp [dispatch, routeTable, List.find?, Route.canHandle, h, Handler.run]

/-- With at least one message, the listing starts with the newest message, marked, and
    continues with the older ones, unmarked, in descending order. -/
theorem listing_eq (st : Store) (hpos : 1 ≤ st.textCount) :
    listing st =
      { index := st.textCount, latest := true,
        text := st.uploadedTexts.getD (st.textCount - 1) "" } ::
        (List.range (st.textCount - 1)).reverse.map
          (fun i => { index := i + 1, latest := false, text := st.uploadedTexts.getD i "" }) := by
  obtain ⟨m, hm⟩ : ∃ m, st.textCount = m + 1 := ⟨st.textCount - 1, by omega⟩
  simp only [listing, hm, List.range_succ, List.reverse_append, List.reverse_cons,
    List.reverse_nil, List.nil_append, List.singleton_append, List.map_cons,
    Nat.add_sub_cancel, decide_True]
  congr 1
  apply List.map_congr_left
  intro i hi
  have hi2 : i < m := List.mem_range.1 (List.mem_reverse.1 hi)
  simp [Nat.ne_of_lt hi2]

/-! ### File extensions -/

/-- A name cannot end with two extensions neither of which ends with the other. -/
theorem endsWith_excl (f a b : String) (ha : endsWith f a = true)
    (hab : (a.data.isSuffixOf b.data || b.data.isSuffixOf a.data) = false) :
    endsWith f b = false := by
  cases hb : endsWith f b with
  | false => rfl
  | true =>
    exfalso
    have ha2 : a.data <:+ f.data := List.isSuffixOf_iff_suffix.1 ha
    have hb2 : b.data <:+ f.data := List.isSuffixOf_iff_suffix.1 hb
    rcases List.suffix_or_suffix_of_suffix ha2 hb2 with h | h
    · have := List.isSuffixOf_iff_suffix.2 h
      simp [this] at hab
    · have := List.isSuffixOf_iff_suffix.2 h
      simp [this] at hab

/-- No two of the tested extensions can end the same name. -/
theorem contentTypes_exclusive :
    ∀ p ∈ contentTypes, ∀ q ∈ contentTypes, p.1 ≠ q.1 →
      (p.1.data.isSuffixOf q.1.data || q.1.data.isSuffixOf p.1.data) = false := by
  decide

/-! ### Static files -/

theorem handleFileRead_none (env : Env) (req : Request) (path : String)
    (h1 : env.fileExists (servedPath path ++ ".gz") = false)
    (h2 : env.fileExists (servedPath path) = false) :
    handleFileRead env req path = none := by
  unfold handleFileRead
  unfold servedPath at h1 h2
  simp only [h1, h2, Bool.or_self, Bool.false_eq_true, if_false]

theorem handleFileRead_code (env : Env) (req : Request) (path : String) (r : Response)
    (h : handleFileRead env req path = some r) : r.code = 200 := by
  unfold handleFileRead at h
  simp only at h
  by_cases hex : (env.fileExists (servedPath path ++ ".gz") || env.fileExists (servedPath path))
      = true
  · unfold servedPath at hex
    rw [if_pos hex] at h
    rw [← Option.some.inj h]
  · unfold servedPath at hex
    rw [if_neg hex] at h
    cases h

/-- A request no route accepts goes to the not-found callback. -/
theorem dispatch_unmatched (env : Env) (req : Request) (st : Store)
    (h : ∀ r ∈ routeTable, r.canHandle req = false) :
    dispatch env req st = (st, onNotFound env req) := by
  have hfind : routeTable.find? (fun r => r.canHandle req) = none := by
    rw [List.find?_eq_none]
    intro r hr
    simp [h r hr]
  unfold dispatch
  rw [hfind]

/-! ### Fragments of the output -/

theorem join_cons (y : String) (ys : List String) :
    String.join (y :: ys) = y ++ String.join ys := by
  apply String.ext
  simp [String.data_join]

theorem infix_of_eq_append (x a b body : String) (h : body = a ++ (x ++ b)) :
    x.data <:+: body.data := by
  rw [h]
  simp only [String.data_append]
  exact List.infix_append' _ _ _

/-- A member of a list of strings occurs in their concatenation. -/
theorem join_split (ys : List String) (y : String) (h : y ∈ ys) :
    ∃ a b, String.join ys = a ++ (y ++ b) := by
  induction ys with
  | nil => cases h
  | cons z zs ih =>
    rw [join_cons]
    rcases List.mem_cons.1 h with rfl | hmem
    · exact ⟨"", String.join zs, by rw [String.empty_append]⟩
    · obtain ⟨a, b, hab⟩ := ih hmem
      exact ⟨z ++ a, b, by rw [hab, String.append_assoc]⟩

theorem intercalate_go_eq (sep : String) (l : List String) (acc : String) :
    String.intercalate.go acc sep l = acc ++ String.join (l.map (fun y => sep ++ y)) := by
  induction l generalizing acc with
  | nil => simp [String.intercalate.go, String.join]
  | cons a l ih =>
    simp only [String.intercalate.go, List.map_cons]
    rw [ih, join_cons]
    simp only [String.append_assoc]

/-- A member of a list of strings occurs in the list joined with a separator. -/
theorem intercalate_split (sep : String) (l : List String) (x : String) (h : x ∈ l) :
    ∃ a b, sep.intercalate l = a ++ (x ++ b) := by
  cases l with
  | nil => cases h
  | cons z zs =>
    simp only [String.intercalate]
    rw [intercalate_go_eq]
    rcases List.mem_cons.1 h with rfl | hmem
    · exact ⟨"", _, by rw [String.empty_append]⟩
    · have hm : sep ++ x ∈ zs.map (fun y => sep ++ y) := List.mem_map.2 ⟨x, hmem, rfl⟩
      obtain ⟨a, b, hab⟩ := join_split _ _ hm
      exact ⟨z ++ (a ++ sep), b, by rw [hab]; simp only [String.append_assoc]⟩

/-- The recogniser accepts the `/api/texts` body when the only message is "hello". -/
theorem isJson_hello_body :
    isJson (handleAPI Env.idle (run Store.init [⟨Env.idle, uploadOf "hello"⟩])).body = true := by
  decide

/-- The recogniser on a few JSON and non-JSON texts. -/
theorem isJson_samples :
    isJson "\x7b\"a\": [1, 2.5e-3, true, null, \"x\\n\", \x7b\x7d, []], \"b\":-0.1\x7d " = true ∧
    isJson "[1,]" = false ∧ isJson "01" = false ∧ isJson "\"a" = false ∧
    isJson "\x7b\"a\":1,\x7d" = false ∧ isJson "[[[[1]]]]" = true := by
  decide

/-! ### Decimal renderings -/

theorem digitChar_isDigit (k : Nat) (h : k < 10) : (Nat.digitChar k).isDigit = true := by
  interval_cases k <;> decide

theorem digitChar_ne_zero (k : Nat) (h : k < 10) (hpos : 0 < k) : Nat.digitChar k ≠ '0' := by
  interval_cases k <;> decide

/-- Shape of the digits `Nat.toDigitsCore` puts in front of `ds`: a leading digit `d`
    and further digits `pre`, with no leading zero except for the number zero. -/
theorem toDigitsCore_shape (fuel n : Nat) (ds : List Char) (h : n < fuel) :
    ∃ d pre, Nat.toDigitsCore 10 fuel n ds = d :: (pre ++ ds) ∧ d.isDigit = true ∧
      (∀ c ∈ pre, c.isDigit = true) ∧ (d = '0' → n = 0 ∧ pre = []) := by
  induction fuel generalizing n ds with
  | zero => omega
  | succ fuel ih =>
    have hmod : n % 10 < 10 := Nat.mod_lt _ (by decide)
    by_cases hq : n / 10 = 0
    · refine ⟨Nat.digitChar (n % 10), [], ?_, digitChar_isDigit _ hmod, ?_, ?_⟩
      · simp [Nat.toDigitsCore, hq]
      · intro c hc
        cases hc
      · intro h0
        refine ⟨?_, rfl⟩
        by_contra hn
        have hlt10 : n < 10 := by omega
        have hpos : 0 < n % 10 := by omega
        exact digitChar_ne_zero _ hmod hpos h0
    · have hlt : n / 10 < fuel := by omega
      obtain ⟨d, pre, heq, hd, hpre, hzero⟩ := ih (n / 10) (Nat.digitChar (n % 10) :: ds) hlt
      refine ⟨d, pre ++ [Nat.digitChar (n % 10)], ?_, hd, ?_, ?_⟩
      · simp [Nat.toDigitsCore, hq, heq]
      · intro c hc
        rcases List.mem_append.1 hc with h1 | h1
        · exact hpre c h1
        · rw [List.mem_singleton.1 h1]
          exact digitChar_isDigit _ hmod
      · intro h0
        exact absurd (hzero h0).1 hq

/-- The decimal rendering of a number: a leading digit and further digits, with no
    leading zero except for the number zero. -/
theorem toString_shape (n : Nat) :
    ∃ d pre, (toString n).data = d :: pre ∧ d.isDigit = true ∧
      (∀ c ∈ pre, c.isDigit = true) ∧ (d = '0' → pre = []) := by
  obtain ⟨d, pre, heq, hd, hpre, hzero⟩ := toDigitsCore_shape (n + 1) n [] (Nat.lt_succ_self n)
  refine ⟨d, pre, ?_, hd, hpre, fun h0 => (hzero h0).2⟩
  show (Nat.repr n).data = d :: pre
  simp only [Nat.repr, Nat.toDigits, List.asString, heq, List.append_nil]

/-! ### Scanning what `handleAPI` writes -/

theorem isDigit_facts (c : Char) (h : c.isDigit = true) :
    c ≠ '"' ∧ c ≠ '\\' ∧ 32 ≤ c.toNat ∧ isJsonWs c = false ∧ c ≠ '\x7b' ∧ c ≠ '[' ∧
    c ≠ 't' ∧ c ≠ 'f' ∧ c ≠ 'n' ∧ c ≠ '-' := by
  have hval : 48 ≤ c.toNat ∧ c.toNat ≤ 57 := by
    simp only [Char.isDigit, Bool.and_eq_true, decide_eq_true_eq] at h
    exact ⟨h.1, h.2⟩
  have hne : ∀ x : Char, x.isDigit = false → c ≠ x := by
    intro x hx hcx
    rw [hcx, hx] at h
    exact Bool.false_ne_true h
  refine ⟨hne _ (by decide), hne _ (by decide), by omega, ?_, hne _ (by decide),
    hne _ (by decide), hne _ (by decide), hne _ (by decide), hne _ (by decide),
    hne _ (by decide)⟩
  have h1 := hne ' ' (by decide)
  have h2 := hne '\t' (by decide)
  have h3 := hne '\n' (by decide)
  have h4 := hne '\r' (by decide)
  simp [isJsonWs, h1, h2, h3, h4]

theorem skipDigits_append (pre : List Char) (r0 : Char) (rs : List Char)
    (hpre : ∀ c ∈ pre, c.isDigit = true) (hr : r0.isDigit = false) :
    skipDigits (pre ++ r0 :: rs) = r0 :: rs := by
  induction pre with
  | nil => simp [skipDigits, hr]
  | cons c cs ih =>
    have hc : c.isDigit = true := hpre c (List.mem_cons_self _ _)
    simp only [List.cons_append, skipDigits, hc, if_true]
    exact ih (fun x hx => hpre x (List.mem_cons_of_mem _ hx))

/-- A plain text followed by a double quote is the rest of a string literal. -/
theorem scanString_plain (t rest : List Char)
    (ht : ∀ c ∈ t, c ≠ '"' ∧ c ≠ '\\' ∧ 32 ≤ c.toNat) :
    scanString (t ++ '"' :: rest) = some rest := by
  induction t with
  | nil =>
    unfold scanString
    simp
  | cons c cs ih =>
    obtain ⟨h1, h2, h3⟩ := ht c (List.mem_cons_self _ _)
    have h4 : ¬ c.toNat < 32 := by omega
    rw [List.cons_append]
    unfold scanString
    simp only [h1, h2, h4, if_false]
    exact ih (fun x hx => ht x (List.mem_cons_of_mem _ hx))

theorem plain_of_isPlainText (t : String) (h : isPlainText t = true) :
    ∀ c ∈ t.data, c ≠ '"' ∧ c ≠ '\\' ∧ 32 ≤ c.toNat := by
  intro c hc
  simp only [isPlainText, List.all_eq_true, Bool.and_eq_true, bne_iff_ne, ne_eq,
    decide_eq_true_eq] at h
  obtain ⟨⟨h1, h2⟩, h3⟩ := h c hc
  exact ⟨h1, h2, h3⟩

theorem plain_toString (n : Nat) :
    ∀ c ∈ (toString n).data, c ≠ '"' ∧ c ≠ '\\' ∧ 32 ≤ c.toNat := by
  obtain ⟨d, pre, heq, hd, hpre, _⟩ := toString_shape n
  intro c hc
  rw [heq] at hc
  have hdig : c.isDigit = true := by
    rcases List.mem_cons.1 hc with h | h
    · rw [h]
      exact hd
    · exact hpre c h
  have hf := isDigit_facts c hdig
  exact ⟨hf.1, hf.2.1, hf.2.2.1⟩

/-- A string literal is one JSON value. -/
theorem scanJson_string (f : Nat) (t rest : List Char)
    (ht : ∀ c ∈ t, c ≠ '"' ∧ c ≠ '\\' ∧ 32 ≤ c.toNat) :
    scanJson (f + 1) .value ('"' :: (t ++ '"' :: rest)) = some rest := by
  simp only [scanJson, if_true]
  exact scanString_plain t rest ht

/-- A decimal rendering followed by a comma is one JSON value. -/
theorem scanJson_number (f n : Nat) (rest : List Char) :
    scanJson (f + 1) .value ((toString n).data ++ ',' :: rest) = some (',' :: rest) := by
  obtain ⟨d, pre, heq, hd, hpre, hzero⟩ := toString_shape n
  obtain ⟨h1, _, _, _, h5, h6, h7, h8, h9, h10⟩ := isDigit_facts d hd
  rw [heq]
  simp only [List.cons_append, scanJson, h1, h5, h6, h7, h8, h9, if_false, scanNumber, h10]
  by_cases h0 : d = '0'
  · have hp := hzero h0
    subst hp
    simp [h0, scanFracExp]
  · simp only [h0, if_false, hd, if_true]
    rw [skipDigits_append pre ',' rest hpre (by decide)]
    simp [scanFracExp]

theorem skipWs_cons (c : Char) (cs : List Char) (h : isJsonWs c = false) :
    skipWs (c :: cs) = c :: cs := by
  simp [skipWs, h]

/-- One member of an object that is followed by a further member. -/
theorem scanJson_member_more (f : Nat) (key v rest : List Char)
    (hkey : ∀ c ∈ key, c ≠ '"' ∧ c ≠ '\\' ∧ 32 ≤ c.toNat)
    (hv0 : skipWs (v ++ ',' :: '"' :: rest) = v ++ ',' :: '"' :: rest)
    (hv : scanJson f .value (v ++ ',' :: '"' :: rest) = some (',' :: '"' :: rest)) :
    scanJson (f + 1) .members ('"' :: (key ++ '"' :: ':' :: (v ++ ',' :: '"' :: rest))) =
      scanJson f .members ('"' :: rest) := by
  simp only [scanJson, if_true]
  rw [scanString_plain key _ hkey]
  simp only [skipWs_cons ':' _ (by decide), if_true, hv0, hv, skipWs_cons ',' _ (by decide),
    skipWs_cons '"' _ (by decide)]

/-- The last member of an object. -/
theorem scanJson_member_last (f : Nat) (key v rest : List Char)
    (hkey : ∀ c ∈ key, c ≠ '"' ∧ c ≠ '\\' ∧ 32 ≤ c.toNat)
    (hv0 : skipWs (v ++ '\x7d' :: rest) = v ++ '\x7d' :: rest)
    (hv : scanJson f .value (v ++ '\x7d' :: rest) = some ('\x7d' :: rest)) :
    scanJson (f + 1) .members ('"' :: (key ++ '"' :: ':' :: (v ++ '\x7d' :: rest))) =
      some rest := by
  simp only [scanJson, if_true]
  rw [scanString_plain key _ hkey]
  simp only [skipWs_cons ':' _ (by decide), if_true, hv0, hv, skipWs_cons '\x7d' _ (by decide)]
  simp

theorem apiEntry_data (env : Env) (i : Nat) (t : String) (rest : List Char) :
    (apiEntry env i t).data ++ rest =
      '\x7b' :: '"' :: (['i', 'd'] ++ '"' :: ':' :: ((toString (i + 1)).data ++ ',' :: '"' ::
        (['t', 'e', 'x', 't'] ++ '"' :: ':' :: (('"' :: (t.data ++ ['"'])) ++ ',' :: '"' ::
          (['t', 'i', 'm', 'e', 's', 't', 'a', 'm', 'p'] ++ '"' :: ':' ::
            (('"' :: ((toString (env.millis i)).data ++ ['"'])) ++ '\x7d' :: rest)))))) := by
  simp only [apiEntry, String.data_append, List.append_assoc, List.cons_append,
    List.nil_append]

/-- An object written by `handleAPI` for a plain text is one JSON value. -/
theorem scanJson_apiEntry (env : Env) (i f : Nat) (t : String) (rest : List Char)
    (ht : isPlainText t = true) :
    scanJson (f + 5) .value ((apiEntry env i t).data ++ rest) = some rest := by
  rw [apiEntry_data]
  have hN := toString_shape (i + 1)
  obtain ⟨d, pre, heq, hd, _, _⟩ := hN
  have hdws : isJsonWs d = false := (isDigit_facts d hd).2.2.2.1
  have step1 : scanJson (f + 5) .value
      ('\x7b' :: '"' :: (['i', 'd'] ++ '"' :: ':' :: ((toString (i + 1)).data ++ ',' :: '"' ::
        (['t', 'e', 'x', 't'] ++ '"' :: ':' :: (('"' :: (t.data ++ ['"'])) ++ ',' :: '"' ::
          (['t', 'i', 'm', 'e', 's', 't', 'a', 'm', 'p'] ++ '"' :: ':' ::
            (('"' :: ((toString (env.millis i)).data ++ ['"'])) ++ '\x7d' :: rest))))))) =
      scanJson (f + 4) .members
      ('"' :: (['i', 'd'] ++ '"' :: ':' :: ((toString (i + 1)).data ++ ',' :: '"' ::
        (['t', 'e', 'x', 't'] ++ '"' :: ':' :: (('"' :: (t.data ++ ['"'])) ++ ',' :: '"' ::
          (['t', 'i', 'm', 'e', 's', 't', 'a', 'm', 'p'] ++ '"' :: ':' ::
            (('"' :: ((toString (env.millis i)).data ++ ['"'])) ++ '\x7d' :: rest))))))) := by
    simp [scanJson, skipWs_cons '"' _ (by decide)]
  rw [step1]
  rw [scanJson_member_more (f + 3) ['i', 'd'] (toString (i + 1)).data _ (by decide)
    (by rw [heq]; exact skipWs_cons d _ hdws) (scanJson_number (f + 2) (i + 1) _)]
  rw [scanJson_member_more (f + 2) ['t', 'e', 'x', 't'] ('"' :: (t.data ++ ['"'])) _ (by decide)
    (skipWs_cons '"' _ (by decide))
    (by
      have := scanJson_string (f + 1) t.data (',' :: '"' ::
          (['t', 'i', 'm', 'e', 's', 't', 'a', 'm', 'p'] ++ '"' :: ':' ::
            (('"' :: ((toString (env.millis i)).data ++ ['"'])) ++ '\x7d' :: rest)))
        (plain_of_isPlainText t ht)
      simpa using this)]
  rw [scanJson_member_last (f + 1) ['t', 'i', 'm', 'e', 's', 't', 'a', 'm', 'p']
    ('"' :: ((toString (env.millis i)).data ++ ['"'])) rest (by decide)
    (skipWs_cons '"' _ (by decide))
    (by
      have := scanJson_string f (toString (env.millis i)).data ('\x7d' :: rest)
        (plain_toString (env.millis i))
      simpa using this)]

/-- What makes a string one array element for `countElements`: it opens with a brace
    and is scanned as one JSON value whatever follows it. -/
theorem apiEntry_element (env : Env) (i : Nat) (t : String) (ht : isPlainText t = true) :
    (∃ tl, (apiEntry env i t).data = '\x7b' :: tl) ∧
    ∀ rest : List Char,
      scanJson (((apiEntry env i t).data ++ rest).length + 1) .value
        ((apiEntry env i t).data ++ rest) = some rest := by
  constructor
  · have h := apiEntry_data env i t []
    rw [List.append_nil] at h
    exact ⟨_, h⟩
  · intro rest
    have hlen : ∃ f, ((apiEntry env i t).data ++ rest).length + 1 = f + 5 := by
      refine ⟨((apiEntry env i t).data ++ rest).length - 4, ?_⟩
      rw [apiEntry_data]
      simp only [List.length_cons, List.length_append]
      omega
    obtain ⟨f, hf⟩ := hlen
    rw [hf]
    exact scanJson_apiEntry env i f t rest ht

theorem join_sep_length (l : List String) :
    l.length ≤ (String.join (l.map (fun y => "," ++ y))).data.length := by
  induction l with
  | nil => simp
  | cons a l ih =>
    rw [List.map_cons, join_cons]
    simp only [String.data_append, List.length_append, List.length_cons]
    have h1 : (",".data).length = 1 := rfl
    omega

/-- Counting the elements of an array made of such elements, separated by commas. -/
theorem countElements_entries (es : List String) (e : String) (fuel : Nat)
    (tail : List Char)
    (hgood : ∀ x ∈ e :: es, (∃ tl, x.data = '\x7b' :: tl) ∧
      ∀ rest : List Char,
        scanJson ((x.data ++ rest).length + 1) .value (x.data ++ rest) = some rest)
    (hfuel : es.length < fuel) :
    countElements fuel
      (e.data ++ ((String.join (es.map (fun y => "," ++ y))).data ++ ']' :: tail)) =
      some (es.length + 1) := by
  induction es generalizing e fuel with
  | nil =>
    obtain ⟨k, rfl⟩ : ∃ k, fuel = k + 1 := ⟨fuel - 1, by omega⟩
    have hscan := (hgood e (List.mem_cons_self _ _)).2 (']' :: tail)
    simp only [List.map_nil, String.join, List.foldl_nil, List.length_nil, Nat.zero_add]
    show countElements (k + 1) (e.data ++ ([] ++ ']' :: tail)) = some 1
    rw [List.nil_append]
    unfold countElements
    rw [hscan]
    simp [skipWs_cons ']' _ (by decide)]
  | cons e1 es ih =>
    obtain ⟨k, rfl⟩ : ∃ k, fuel = k + 1 := ⟨fuel - 1, by omega⟩
    have hk : es.length < k := by
      simp only [List.length_cons] at hfuel
      omega
    obtain ⟨tl, htl⟩ := (hgood e1 (List.mem_cons_of_mem _ (List.mem_cons_self _ _))).1
    have hrest : (String.join ((e1 :: es).map (fun y => "," ++ y))).data ++ ']' :: tail =
        ',' :: (e1.data ++ ((String.join (es.map (fun y => "," ++ y))).data ++ ']' :: tail)) := by
      rw [List.map_cons, join_cons]
      simp only [String.data_append, List.append_assoc]
      rfl
    have hscan := (hgood e (List.mem_cons_self _ _)).2
      (',' :: (e1.data ++ ((String.join (es.map (fun y => "," ++ y))).data ++ ']' :: tail)))
    have hih := ih e1 k (fun x hx => hgood x (List.mem_cons_of_mem _ hx)) hk
    rw [hrest]
    unfold countElements
    rw [hscan]
    have hws : skipWs (e1.data ++ ((String.join (es.map (fun y => "," ++ y))).data
        ++ ']' :: tail)) =
        e1.data ++ ((String.join (es.map (fun y => "," ++ y))).data ++ ']' :: tail) := by
      rw [htl]
      exact skipWs_cons '\x7b' _ (by decide)
    simp only [skipWs_cons ',' _ (by decide), if_true, hws, hih, Option.map_some',
      List.length_cons]

/-- When every stored message is plain, a JSON parser reads exactly `textCount`
    entries from the `texts` array of the `/api/texts` document. -/
theorem textsArrayLength_handleAPI (env : Env) (st : Store)
    (hplain : ∀ i, i < st.textCount → isPlainText (st.uploadedTexts.getD i "") = true) :
    textsArrayLength (handleAPI env st).body = some st.textCount := by
  obtain ⟨tl, htl⟩ : ∃ tl, (apiTail env st.textCount).data = ']' :: tl := by
    refine ⟨(",\"total\":" ++ toString st.textCount ++ "," ++
      ("\"connected_devices\":" ++ toString env.stationNum ++ "\x7d")).data, ?_⟩
    simp only [apiTail, String.data_append, List.append_assoc]
    rfl
  have hgood : ∀ x ∈ apiEntries env st, (∃ tl, x.data = '\x7b' :: tl) ∧
      ∀ rest : List Char,
        scanJson ((x.data ++ rest).length + 1) .value (x.data ++ rest) = some rest := by
    intro x hx
    obtain ⟨i, hi, rfl⟩ := List.mem_map.1 hx
    exact apiEntry_element env i _ (hplain i (List.mem_range.1 hi))
  have hlen : (apiEntries env st).length = st.textCount := by
    simp [apiEntries]
  have hbody : (handleAPI env st).body.data =
      "\x7b\"texts\":[".data ++ ((",".intercalate (apiEntries env st)).data ++ ']' :: tl) := by
    rw [handleAPI_body]
    simp only [String.data_append, htl]
  unfold textsArrayLength
  simp only [String.length]
  rw [hbody, if_pos (List.isPrefixOf_iff_prefix.2 (List.prefix_append _ _)),
    List.drop_left' (by rfl)]
  cases hes : apiEntries env st with
  | nil =>
    rw [hes] at hlen
    simp only [String.intercalate]
    show (match skipWs ([] ++ ']' :: tl) with
      | [] => none
      | d :: r => if d = ']' then some 0 else _) = some st.textCount
    rw [List.nil_append, skipWs_cons ']' _ (by decide), ← hlen]
    simp
  | cons e es =>
    rw [hes] at hlen hgood
    obtain ⟨etl, hetl⟩ := (hgood e (List.mem_cons_self _ _)).1
    simp only [String.intercalate]
    rw [intercalate_go_eq]
    generalize hF : ("\x7b\"texts\":[".data ++
      ((e ++ String.join (es.map (fun y => "," ++ y))).data ++ ']' :: tl)).length = F
    have hfuel : es.length < F := by
      have := join_sep_length es
      rw [← hF]
      simp only [List.length_append, String.data_append, List.length_cons]
      omega
    have hcount := countElements_entries es e F tl hgood hfuel
    have hws : skipWs ((e ++ String.join (es.map (fun y => "," ++ y))).data ++ ']' :: tl) =
        '\x7b' :: (etl ++ ((String.join (es.map (fun y => "," ++ y))).data ++ ']' :: tl)) := by
      simp only [String.data_append, List.append_assoc, hetl, List.cons_append]
      exact skipWs_cons '\x7b' _ (by decide)
    rw [hws]
    simp only [show ('\x7b' = ']') = False from by decide, if_false]
    rw [hetl] at hcount
    simp only [List.cons_append] at hcount
    rw [hcount, ← hlen]
    rfl

theorem getD_mem_messages (st : Store) (hle : st.textCount ≤ 100) (i : Nat)
    (hi : i < st.textCount) : st.uploadedTexts.getD i "" ∈ st.messages := by
  have hlt : i < st.uploadedTexts.length := by
    rw [st.size_eq]
    omega
  have hlt2 : i < (st.uploadedTexts.take st.textCount).length := by
    rw [List.length_take]
    omega
  have hget : (st.uploadedTexts.take st.textCount)[i] = st.uploadedTexts.getD i "" := by
    rw [List.getD_eq_getElem?_getD, List.getElem?_eq_getElem hlt, List.getElem_take]
    rfl
  rw [← hget]
  exact List.getElem_mem hlt2

/-! ## The claims -/

/-- C1: in a store with fewer than 100 messages, an upload request carrying a
    non-empty text `t` is answered 200, raises the count by one and appends `t` to the
    chronological sequence: every earlier slot keeps its text, `t` becomes the last
    object of the `/api/texts` array (with id `count + 1`) and the first entry of the
    `/texts` listing (with the "Latest" marker), followed by the earlier messages under
    their old display indices. -/
theorem C1_upload_appends (st : Store) (req : Request) (t : String)
    (hcount : st.textCount < 100) (ht : t ≠ "")
    (harg : req.hasArg "textInput" = true) (hval : req.arg "textInput" = t) :
    (handleUpload req st).2.code = 200 ∧
    (handleUpload req st).1.textCount = st.textCount + 1 ∧
    (handleUpload req st).1.messages = st.messages ++ [t] ∧
    (∀ i, i < st.textCount →
      (handleUpload req st).1.uploadedTexts.getD i "" = st.uploadedTexts.getD i "") ∧
    (∀ env : Env,
      apiEntries env (handleUpload req st).1 =
        apiEntries env st ++ [apiEntry env st.textCount t] ∧
      (apiEntries env (handleUpload req st).1).getLast? = some (apiEntry env st.textCount t) ∧
      (handleAPI env (handleUpload req st).1).body =
        "\x7b\"texts\":[" ++ (",".intercalate (apiEntries env st ++ [apiEntry env st.textCount t])
          ++ apiTail env (st.textCount + 1))) ∧
    listing (handleUpload req st).1 =
      { index := st.textCount + 1, latest := true, text := t } ::
        (List.range st.textCount).reverse.map
          (fun i => { index := i + 1, latest := false, text := st.uploadedTexts.getD i "" }) ∧
    (handleTextList (handleUpload req st).1).body =
      textListHead (handleUpload req st).1 ++
        (("<div style='padding:25px;'>" ++ ("<div class='text-list'>" ++
          (String.join ((listing (handleUpload req st).1).map ListingEntry.render)
            ++ "</div></div>"))) ++ textListFoot "") := by
  subst hval
  have hlt : st.textCount < st.uploadedTexts.length := by
    rw [st.size_eq]
    exact hcount
  obtain ⟨hresp, htexts, hcnt⟩ := handleUpload_accept req st harg ht hcount
  have hentries : ∀ env : Env,
      apiEntries env (handleUpload req st).1 =
        apiEntries env st ++ [apiEntry env st.textCount (req.arg "textInput")] := by
    intro env
    simp only [apiEntries, hcnt, htexts, List.range_succ, List.map_append, List.map_cons,
      List.map_nil]
    rw [getD_set_self _ _ _ hlt]
    congr 1
    apply List.map_congr_left
    intro i hi
    rw [getD_set_of_ne _ _ _ _ (Nat.ne_of_lt (List.mem_range.1 hi))]
  have hlisting :
      listing (handleUpload req st).1 =
      { index := st.textCount + 1, latest := true, text := req.arg "textInput" } ::
        (List.range st.textCount).reverse.map
          (fun i => { index := i + 1, latest := false, text := st.uploadedTexts.getD i "" }) := by
    simp only [listing, hcnt, htexts, List.range_succ, List.reverse_append,
      List.reverse_cons, List.reverse_nil, List.nil_append, List.singleton_append,
      List.map_cons, Nat.add_sub_cancel, decide_True]
    rw [getD_set_self _ _ _ hlt]
    congr 1
    apply List.map_congr_left
    intro i hi
    have hi2 : i < st.textCount := List.mem_range.1 (List.mem_reverse.1 hi)
    rw [getD_set_of_ne _ _ _ _ (Nat.ne_of_lt hi2)]
    simp [Nat.ne_of_lt hi2]
  refine ⟨?_, hcnt, ?_, ?_, ?_, hlisting, ?_⟩
  · rw [hresp]
  · simp only [Store.messages, hcnt, htexts]
    exact take_succ_set _ _ _ hlt
  · intro i hi
    rw [htexts]
    exact getD_set_of_ne _ _ _ _ (Nat.ne_of_lt hi)
  · intro env
    refine ⟨hentries env, ?_, ?_⟩
    · rw [hentries env]
      exact List.getLast?_concat _
    · rw [handleAPI_body, hentries env, hcnt]
  · rw [handleTextList_body]
    simp only [hcnt, Nat.succ_ne_zero, if_false]

/-- Witness for C1: uploading "hello" into the empty store. -/
theorem C1_upload_appends_witness :
    (handleUpload ⟨.HTTP_POST, "/upload", [("textInput", "hello")]⟩ Store.init).2.code = 200 ∧
    (handleUpload ⟨.HTTP_POST, "/upload", [("textInput", "hello")]⟩ Store.init).1.messages
      = ["hello"] :=
  have h := C1_upload_appends Store.init ⟨.HTTP_POST, "/upload", [("textInput", "hello")]⟩
    "hello" (by decide) (by decide) (by decide) (by decide)
  ⟨h.1, h.2.2.1⟩

/-- C2: an upload request whose `textInput` value is the empty string is answered 400
    and leaves the store (count and every slot) as it was. -/
theorem C2_empty_upload_rejected (st : Store) (req : Request)
    (harg : req.hasArg "textInput" = true) (hval : req.arg "textInput" = "") :
    (handleUpload req st).2.code = 400 ∧ (handleUpload req st).1 = st := by
  unfold handleUpload
  simp [harg, hval]

/-- Witness for C2: an empty `textInput` sent to the empty store. -/
theorem C2_empty_upload_rejected_witness :
    (handleUpload ⟨.HTTP_POST, "/upload", [("textInput", "")]⟩ Store.init).2.code = 400 ∧
    (handleUpload ⟨.HTTP_POST, "/upload", [("textInput", "")]⟩ Store.init).1 = Store.init :=
  C2_empty_upload_rejected Store.init ⟨.HTTP_POST, "/upload", [("textInput", "")]⟩
    (by decide) (by decide)

/-- C3: in every state reached from the empty store by any sequence of requests the
    count is at most 100 (it is a natural number, so at least 0); and once 100 uploads
    have succeeded the count is 100 and every further upload request, whatever its
    arguments, is answered 400 and leaves the count and all stored messages as they
    were. -/
theorem C3_count_bounded (evs : List Event) :
    (run Store.init evs).textCount ≤ 100 ∧
    (successfulUploads Store.init evs = 100 →
      (run Store.init evs).textCount = 100 ∧
      ∀ (env : Env) (req : Request), isUploadRequest req = true →
        (dispatch env req (run Store.init evs)).2.code = 400 ∧
        (dispatch env req (run Store.init evs)).1 = run Store.init evs) := by
  refine ⟨run_textCount_le evs Store.init (by decide), ?_⟩
  intro h100
  have hcount : (run Store.init evs).textCount = 100 := by
    rw [run_textCount, h100]
    rfl
  refine ⟨hcount, ?_⟩
  intro env req hup
  rw [dispatch_upload env req _ hup]
  exact handleUpload_full req _ hcount

/-- Witness for C3: a hundred uploads of "x", then one more. -/
theorem C3_count_bounded_witness :
    successfulUploads Store.init (List.replicate 100 ⟨Env.idle, uploadOf "x"⟩) = 100 ∧
    (dispatch Env.idle (uploadOf "one more")
      (run Store.init (List.replicate 100 ⟨Env.idle, uploadOf "x"⟩))).2.code = 400 :=
  have h100 : successfulUploads Store.init (List.replicate 100 ⟨Env.idle, uploadOf "x"⟩) = 100 := by
    decide
  ⟨h100, (((C3_count_bounded (List.replicate 100 ⟨Env.idle, uploadOf "x"⟩)).2 h100).2
    Env.idle (uploadOf "one more") (by decide)).1⟩

/-- C4 (as stated) fails: after the single accepted upload of the text
    `x","timestamp":"1"},{"id":2,"text":"y` the `/api/texts` document is well-formed,
    its `total` is 1, one upload was answered 200, and its `texts` array has two
    entries. -/
theorem C4_counterexample :
    successfulUploads Store.init
      [⟨Env.idle, uploadOf "x\",\"timestamp\":\"1\"\x7d,\x7b\"id\":2,\"text\":\"y"⟩] = 1 ∧
    (handleAPI Env.idle (run Store.init
      [⟨Env.idle, uploadOf "x\",\"timestamp\":\"1\"\x7d,\x7b\"id\":2,\"text\":\"y"⟩])).body =
      "\x7b\"texts\":[\x7b\"id\":1,\"text\":\"x\",\"timestamp\":\"1\"\x7d,\x7b\"id\":2,\"text\":\"y\",\"timestamp\":\"0\"\x7d],\"total\":1,\"connected_devices\":0\x7d" ∧
    isJson (handleAPI Env.idle (run Store.init
      [⟨Env.idle, uploadOf "x\",\"timestamp\":\"1\"\x7d,\x7b\"id\":2,\"text\":\"y"⟩])).body
      = true ∧
    textsArrayLength (handleAPI Env.idle (run Store.init
      [⟨Env.idle, uploadOf "x\",\"timestamp\":\"1\"\x7d,\x7b\"id\":2,\"text\":\"y"⟩])).body
      = some 2 := by
  decide

/-- C4 (amended): after any sequence of requests from the empty store, the number
    `handleAPI` writes in the `total` field is the number of upload requests that were
    answered 200, and so is the number of objects it writes into the `texts` array (one
    per stored message); whenever no stored message contains a double quote, a
    backslash or a control character, that is also the number of entries a JSON parser
    reads from the `texts` array of the document. -/
theorem C4_total_counts_uploads (evs : List Event) (env : Env) :
    (handleAPI env (run Store.init evs)).body =
      "\x7b\"texts\":[" ++ (",".intercalate (apiEntries env (run Store.init evs)) ++
        (("],\"total\":" ++ toString (successfulUploads Store.init evs) ++ ",") ++
         ("\"connected_devices\":" ++ toString env.stationNum ++ "\x7d"))) ∧
    (apiEntries env (run Store.init evs)).length = successfulUploads Store.init evs ∧
    ((∀ m ∈ (run Store.init evs).messages, isPlainText m = true) →
      textsArrayLength (handleAPI env (run Store.init evs)).body =
        some (successfulUploads Store.init evs)) := by
  have hcount : (run Store.init evs).textCount = successfulUploads Store.init evs := by
    rw [run_textCount]
    exact Nat.zero_add _
  refine ⟨?_, ?_, ?_⟩
  · rw [handleAPI_body, hcount]
    rfl
  · simp only [apiEntries, List.length_map, List.length_range]
    exact hcount
  · intro hplain
    rw [← hcount]
    apply textsArrayLength_handleAPI
    intro i hi
    exact hplain _ (getD_mem_messages _ (run_textCount_le evs Store.init (by decide)) i hi)

/-- Witness for C4 (amended): the uploads "hello" and "world", with an empty upload
    in between. -/
theorem C4_total_counts_uploads_witness :
    (run Store.init [⟨Env.idle, uploadOf "hello"⟩, ⟨Env.idle, uploadOf ""⟩,
      ⟨Env.idle, uploadOf "world"⟩]).messages = ["hello", "world"] ∧
    successfulUploads Store.init [⟨Env.idle, uploadOf "hello"⟩, ⟨Env.idle, uploadOf ""⟩,
      ⟨Env.idle, uploadOf "world"⟩] = 2 ∧
    textsArrayLength (handleAPI Env.idle (run Store.init [⟨Env.idle, uploadOf "hello"⟩,
      ⟨Env.idle, uploadOf ""⟩, ⟨Env.idle, uploadOf "world"⟩])).body =
      some (successfulUploads Store.init [⟨Env.idle, uploadOf "hello"⟩,
        ⟨Env.idle, uploadOf ""⟩, ⟨Env.idle, uploadOf "world"⟩]) :=
  ⟨by decide, by decide,
   (C4_total_counts_uploads [⟨Env.idle, uploadOf "hello"⟩, ⟨Env.idle, uploadOf ""⟩,
      ⟨Env.idle, uploadOf "world"⟩] Env.idle).2.2 (by decide)⟩

/-- C5 (as stated) fails: `GET /docs/` matches no route, neither "/docs/" nor
    "/docs/.gz" exists in the filesystem, and still the answer is not the captive-portal
    page but the file "/docs/index.html". -/
theorem C5_counterexample :
    routeTable.all (fun r => !r.canHandle ⟨.HTTP_GET, "/docs/", []⟩) = true ∧
    Env.fileExists ⟨fun _ => 0, 0, [("/docs/index.html", "<h1>docs</h1>")]⟩ "/docs/" = false ∧
    Env.fileExists ⟨fun _ => 0, 0, [("/docs/index.html", "<h1>docs</h1>")]⟩ ("/docs/" ++ ".gz")
      = false ∧
    (dispatch ⟨fun _ => 0, 0, [("/docs/index.html", "<h1>docs</h1>")]⟩
      ⟨.HTTP_GET, "/docs/", []⟩ Store.init).2 ≠ handleCaptivePortal ∧
    (dispatch ⟨fun _ => 0, 0, [("/docs/index.html", "<h1>docs</h1>")]⟩
      ⟨.HTTP_GET, "/docs/", []⟩ Store.init).2 =
        { code := 200, contentType := "text/html", body := "<h1>docs</h1>" } := by
  decide

/-- C5 (amended): a request that matches none of the registered routes never gets a
    404: it is answered with status 200 and leaves the store alone; the answer is the
    captive-portal redirect page whenever neither the looked-up path (the request
    path, with "index.html" appended when it ends in "/") nor that path with ".gz"
    appended exists in the static filesystem. -/
theorem C5_unmatched_gets_portal (env : Env) (req : Request) (st : Store)
    (hroute : ∀ r ∈ routeTable, r.canHandle req = false) :
    (dispatch env req st).1 = st ∧
    (dispatch env req st).2.code = 200 ∧
    (dispatch env req st).2.code ≠ 404 ∧
    (env.fileExists (servedPath req.uri) = false →
      env.fileExists (servedPath req.uri ++ ".gz") = false →
      (dispatch env req st).2 = handleCaptivePortal) ∧
    (endsWith req.uri "/" = false → env.fileExists req.uri = false →
      env.fileExists (req.uri ++ ".gz") = false →
      (dispatch env req st).2 = handleCaptivePortal) := by
  rw [dispatch_unmatched env req st hroute]
  have hcode : (onNotFound env req).code = 200 := by
    unfold onNotFound
    cases hf : handleFileRead env req req.uri with
    | none => rfl
    | some r => exact handleFileRead_code env req req.uri r hf
  have hportal : env.fileExists (servedPath req.uri) = false →
      env.fileExists (servedPath req.uri ++ ".gz") = false →
      onNotFound env req = handleCaptivePortal := by
    intro h1 h2
    unfold onNotFound
    rw [handleFileRead_none env req req.uri h2 h1]
  refine ⟨rfl, hcode, ?_, hportal, ?_⟩
  · show (onNotFound env req).code ≠ 404
    rw [hcode]
    decide
  · intro hslash h1 h2
    have hs : servedPath req.uri = req.uri := by
      simp [servedPath, hslash]
    apply hportal
    · rw [hs]
      exact h1
    · rw [hs]
      exact h2

/-- Witness for C5 (amended): `GET /foo` on a device with an empty filesystem. -/
theorem C5_unmatched_gets_portal_witness :
    (dispatch Env.idle ⟨.HTTP_GET, "/foo", []⟩ Store.init).2.code = 200 ∧
    (dispatch Env.idle ⟨.HTTP_GET, "/foo", []⟩ Store.init).2 = handleCaptivePortal :=
  have h := C5_unmatched_gets_portal Env.idle ⟨.HTTP_GET, "/foo", []⟩ Store.init (by decide)
  ⟨h.2.1, h.2.2.2.1 (by decide) (by decide)⟩

/-- C6 (as stated) fails: when the filesystem mount fails, `setup` returns right after
    logging the error; the access point, the DNS redirector, the routes and the web
    server are never brought up. -/
theorem C6_counterexample :
    (setup false true).accessPointConfigured = false ∧
    (setup false true).dnsStarted = false ∧
    (setup false true).routes = [] ∧
    (setup false true).notFoundRegistered = false ∧
    (setup false true).serverBegun = false ∧
    (setup false true).log =
      ["🎨 Starting ESP32 Art Beacon Portal...",
       "An Error has occurred while mounting SPIFFS"] := by
  decide

/-- C6 (amended): when the filesystem mount succeeds, `setup` configures the access
    point, starts the DNS redirector, registers all routes and the not-found callback
    and starts the web server for either outcome of the hostname registration, whose
    failure is logged ("Error setting up MDNS responder!") and only leaves hostname
    discovery off; when the mount fails, `setup` logs the error ("An Error has
    occurred while mounting SPIFFS") and stops, bringing up none of them. -/
theorem C6_setup_outcomes (mdnsOk : Bool) :
    ((setup true mdnsOk).spiffsMounted = true ∧
     (setup true mdnsOk).accessPointConfigured = true ∧
     (setup true mdnsOk).dnsStarted = true ∧
     (setup true mdnsOk).routes = routeTable ∧
     (setup true mdnsOk).notFoundRegistered = true ∧
     (setup true mdnsOk).serverBegun = true ∧
     (setup true mdnsOk).mdnsStarted = mdnsOk ∧
     (setup true mdnsOk).log =
       ["🎨 Starting ESP32 Art Beacon Portal...",
        (if mdnsOk then "mDNS responder started" else "Error setting up MDNS responder!"),
        "Art Beacon Portal Ready!",
        "Access Point: ", "🎨 Art Beacon Portal",
        "IP address: ", "192.168.4.1",
        "📱 Connect to see messages from fellow travelers!",
        "✨ Web server and captive portal active!"]) ∧
    ((setup false mdnsOk).spiffsMounted = false ∧
     (setup false mdnsOk).accessPointConfigured = false ∧
     (setup false mdnsOk).dnsStarted = false ∧
     (setup false mdnsOk).routes = [] ∧
     (setup false mdnsOk).notFoundRegistered = false ∧
     (setup false mdnsOk).serverBegun = false ∧
     (setup false mdnsOk).mdnsStarted = false ∧
     (setup false mdnsOk).log =
       ["🎨 Starting ESP32 Art Beacon Portal...",
        "An Error has occurred while mounting SPIFFS"]) := by
  cases mdnsOk <;> decide

/-- C7 (as stated) fails: with one stored message and no upload in between, two
    consecutive `/api/texts` requests served at different uptimes get different
    bodies, because every object carries the current `millis()` reading. -/
theorem C7_counterexample :
    (dispatch { millis := fun _ => 2000, stationNum := 1, files := [] }
        { method := .HTTP_GET, uri := "/api/texts", args := [] }
        (dispatch { millis := fun _ => 1000, stationNum := 1, files := [] }
          { method := .HTTP_GET, uri := "/api/texts", args := [] }
          (run Store.init [⟨Env.idle, uploadOf "hello"⟩])).1).2.body ≠
    (dispatch { millis := fun _ => 1000, stationNum := 1, files := [] }
        { method := .HTTP_GET, uri := "/api/texts", args := [] }
        (run Store.init [⟨Env.idle, uploadOf "hello"⟩])).2.body := by
  decide

/-- C7 (amended): neither a `/texts` nor an `/api/texts` request changes the store; two
    consecutive `/texts` requests get the same response; two consecutive `/api/texts`
    requests get the same response whenever the uptime readings used for the stored
    messages and the connected-station count are the same at both requests. -/
theorem C7_reads_repeatable (st : Store) (env1 env2 : Env) (req1 req2 : Request) :
    (req1.uri = "/texts" → req2.uri = "/texts" →
      (dispatch env1 req1 st).1 = st ∧
      (dispatch env2 req2 (dispatch env1 req1 st).1).1 = st ∧
      (dispatch env2 req2 (dispatch env1 req1 st).1).2 = (dispatch env1 req1 st).2) ∧
    (req1.uri = "/api/texts" → req2.uri = "/api/texts" →
      (dispatch env1 req1 st).1 = st ∧
      (dispatch env2 req2 (dispatch env1 req1 st).1).1 = st ∧
      ((∀ i, i < st.textCount → env1.millis i = env2.millis i) →
        env1.stationNum = env2.stationNum →
        (dispatch env2 req2 (dispatch env1 req1 st).1).2 = (dispatch env1 req1 st).2)) := by
  constructor
  · intro h1 h2
    rw [dispatch_texts env1 req1 st h1, dispatch_texts env2 req2 st h2]
    exact ⟨rfl, rfl, rfl⟩
  · intro h1 h2
    rw [dispatch_api env1 req1 st h1, dispatch_api env2 req2 st h2]
    refine ⟨rfl, rfl, ?_⟩
    intro hm hs
    have hentries : apiEntries env2 st = apiEntries env1 st := by
      simp only [apiEntries]
      apply List.map_congr_left
      intro i hi
      simp only [apiEntry, hm i (List.mem_range.1 hi)]
    have hbody : (handleAPI env2 st).body = (handleAPI env1 st).body := by
      rw [handleAPI_body, handleAPI_body, hentries]
      simp only [apiTail, hs]
    have hcode : (handleAPI env2 st).code = (handleAPI env1 st).code := rfl
    have hct : (handleAPI env2 st).contentType = (handleAPI env1 st).contentType := rfl
    show handleAPI env2 st = handleAPI env1 st
    cases h2 : handleAPI env2 st
    cases h1 : handleAPI env1 st
    simp_all

/-- Witness for C7 (amended): two `/texts` and two `/api/texts` requests on a store with
    one message, the second pair with equal readings. -/
theorem C7_reads_repeatable_witness :
    (dispatch Env.idle ⟨.HTTP_GET, "/texts", []⟩
        (dispatch Env.idle ⟨.HTTP_GET, "/texts", []⟩
          (run Store.init [⟨Env.idle, uploadOf "hello"⟩])).1).2 =
      (dispatch Env.idle ⟨.HTTP_GET, "/texts", []⟩
        (run Store.init [⟨Env.idle, uploadOf "hello"⟩])).2 ∧
    (dispatch Env.idle ⟨.HTTP_GET, "/api/texts", []⟩
        (dispatch Env.idle ⟨.HTTP_GET, "/api/texts", []⟩
          (run Store.init [⟨Env.idle, uploadOf "hello"⟩])).1).2 =
      (dispatch Env.idle ⟨.HTTP_GET, "/api/texts", []⟩
        (run Store.init [⟨Env.idle, uploadOf "hello"⟩])).2 :=
  have h := C7_reads_repeatable (run Store.init [⟨Env.idle, uploadOf "hello"⟩])
    Env.idle Env.idle ⟨.HTTP_GET, "/texts", []⟩ ⟨.HTTP_GET, "/texts", []⟩
  have h2 := C7_reads_repeatable (run Store.init [⟨Env.idle, uploadOf "hello"⟩])
    Env.idle Env.idle ⟨.HTTP_GET, "/api/texts", []⟩ ⟨.HTTP_GET, "/api/texts", []⟩
  ⟨(h.1 rfl rfl).2.2, (h2.2 rfl rfl).2.2 (fun _ _ => rfl) rfl⟩

/-- C8: with `n ≥ 1` messages the `/texts` page lists the display indices
    `n, n-1, ..., 1` in that order, and exactly one entry carries the "Latest" marker:
    the first one, with display index `n`.  On a fresh store after uploading "hello" the
    page has the single entry displayed as `Message #1 • Latest` with text "hello", and
    `/api/texts` has total 1 and exactly one object, with id 1 and text "hello". -/
theorem C8_listing_newest_first (st : Store) (hpos : 1 ≤ st.textCount) :
    (handleTextList st).body =
      textListHead st ++
        (("<div style='padding:25px;'>" ++ ("<div class='text-list'>" ++
          (String.join ((listing st).map ListingEntry.render) ++ "</div></div>"))) ++
        textListFoot "") ∧
    (listing st).map (fun e => e.index) = List.iota st.textCount ∧
    (listing st).filter (fun e => e.latest) =
      [{ index := st.textCount, latest := true,
         text := st.uploadedTexts.getD (st.textCount - 1) "" }] ∧
    (listing st).head? =
      some { index := st.textCount, latest := true,
             text := st.uploadedTexts.getD (st.textCount - 1) "" } ∧
    (∀ env : Env,
      listing (run Store.init [⟨env, uploadOf "hello"⟩]) =
        [{ index := 1, latest := true, text := "hello" }] ∧
      ListingEntry.render { index := 1, latest := true, text := "hello" } =
        "<div class='text-item'><h3>Message #1 <span style='color:var(--accent);'>• Latest</span></h3><p>\"hello\"</p></div>" ∧
      visibleText (ListingEntry.render { index := 1, latest := true, text := "hello" }).data
        false = "Message #1 • Latest\"hello\"".data ∧
      apiEntries env (run Store.init [⟨env, uploadOf "hello"⟩]) =
        ["\x7b\"id\":1,\"text\":\"hello\",\"timestamp\":\"" ++ toString (env.millis 0) ++ "\"\x7d"] ∧
      (handleAPI env (run Store.init [⟨env, uploadOf "hello"⟩])).body =
        "\x7b\"texts\":[\x7b\"id\":1,\"text\":\"hello\",\"timestamp\":\""
          ++ toString (env.millis 0) ++ "\"\x7d],\"total\":1,\"connected_devices\":"
          ++ toString env.stationNum ++ "\x7d") := by
  refine ⟨?_, ?_, ?_, ?_, ?_⟩
  · rw [handleTextList_body]
    have h0 : st.textCount ≠ 0 := by omega
    simp only [h0, if_false]
  · simp only [listing, List.map_map, List.map_reverse, Function.comp_def,
      List.iota_eq_reverse_range', List.range'_eq_map_range]
    congr 1
    apply List.map_congr_left
    intro i _
    exact Nat.add_comm i 1
  · rw [listing_eq st hpos]
    simp [List.filter_cons, List.filter_map, Function.comp_def]
  · rw [listing_eq st hpos]
    rfl
  · intro env
    have hrun : run Store.init [⟨env, uploadOf "hello"⟩] =
        { uploadedTexts := "hello" :: List.replicate 99 "", textCount := 1,
          size_eq := by decide } := by
      simp only [run]
      rw [dispatch_upload env (uploadOf "hello") Store.init (by decide)]
      decide
    rw [hrun]
    refine ⟨by decide, by decide, by decide, ?_, ?_⟩
    · simp only [apiEntries, apiEntry, List.range_succ, List.range_zero, List.nil_append,
        List.map_cons, List.map_nil, String.append_assoc]
      rfl
    · rw [handleAPI_body]
      simp only [apiEntries, apiEntry, apiTail, List.range_succ, List.range_zero,
        List.nil_append, List.map_cons, List.map_nil, String.intercalate,
        String.intercalate.go, String.append_assoc]
      rfl

/-- Witness for C8: the store after uploading "a" and then "b". -/
theorem C8_listing_newest_first_witness :
    1 ≤ (run Store.init [⟨Env.idle, uploadOf "a"⟩, ⟨Env.idle, uploadOf "b"⟩]).textCount ∧
    (listing (run Store.init [⟨Env.idle, uploadOf "a"⟩, ⟨Env.idle, uploadOf "b"⟩])).map
      (fun e => e.index) =
      List.iota (run Store.init [⟨Env.idle, uploadOf "a"⟩, ⟨Env.idle, uploadOf "b"⟩]).textCount ∧
    List.iota (run Store.init [⟨Env.idle, uploadOf "a"⟩, ⟨Env.idle, uploadOf "b"⟩]).textCount
      = [2, 1] :=
  ⟨by decide,
   (C8_listing_newest_first
     (run Store.init [⟨Env.idle, uploadOf "a"⟩, ⟨Env.idle, uploadOf "b"⟩]) (by decide)).2.1,
   by decide⟩

/-- C9 (as stated) fails: "/page.htm" ends with none of the listed extensions, yet its
    type is `text/html`, not the default; and a request with a `download` argument
    gets `application/octet-stream` even for a name ending in `.png`. -/
theorem C9_counterexample :
    listedExtensions.all (fun ext => !endsWith "/page.htm" ext) = true ∧
    getContentType ⟨.HTTP_GET, "/page.htm", []⟩ "/page.htm" = "text/html" ∧
    endsWith "/logo.png" ".png" = true ∧
    getContentType ⟨.HTTP_GET, "/logo.png", [("download", "1")]⟩ "/logo.png"
      = "application/octet-stream" := by
  decide

/-- C9 (amended): for a request with a `download` argument `getContentType` returns
    `application/octet-stream` for every filename; for a request without one it returns
    the type of the tested extension the filename ends with (the listed ones and also
    `.htm`, which gives `text/html`), and `text/plain` for every filename that ends
    with none of the tested extensions. -/
theorem C9_content_type (req : Request) (filename : String) :
    (req.hasArg "download" = true →
      getContentType req filename = "application/octet-stream") ∧
    (req.hasArg "download" = false →
      (∀ p ∈ contentTypes, endsWith filename p.1 = true →
        getContentType req filename = p.2) ∧
      ((∀ p ∈ contentTypes, endsWith filename p.1 = false) →
        getContentType req filename = "text/plain")) := by
  refine ⟨?_, ?_⟩
  · intro hdl
    simp [getContentType, hdl]
  · intro hdl
    refine ⟨?_, ?_⟩
    · intro p hp hends
      have Hall : ∀ q ∈ contentTypes, p.1 ≠ q.1 → endsWith filename q.1 = false :=
        fun q hq hne =>
          endsWith_excl filename p.1 q.1 hends (contentTypes_exclusive p hp q hq hne)
      simp only [contentTypes, List.mem_cons, List.mem_singleton, List.not_mem_nil,
        or_false] at hp
      rcases hp with rfl | rfl | rfl | rfl | rfl | rfl | rfl | rfl | rfl | rfl | rfl | rfl <;>
        simp [contentTypes] at Hall <;>
        simp [getContentType, hdl, hends, Hall]
    · intro hnone
      simp [contentTypes] at hnone
      simp [getContentType, hdl, hnone]

/-- Witness for C9 (amended): a download request, "/app.js" and "/README". -/
theorem C9_content_type_witness :
    getContentType ⟨.HTTP_GET, "/logo.png", [("download", "1")]⟩ "/logo.png"
      = "application/octet-stream" ∧
    getContentType ⟨.HTTP_GET, "/app.js", []⟩ "/app.js" = "application/javascript" ∧
    getContentType ⟨.HTTP_GET, "/README", []⟩ "/README" = "text/plain" :=
  ⟨(C9_content_type ⟨.HTTP_GET, "/logo.png", [("download", "1")]⟩ "/logo.png").1 (by decide),
   ((C9_content_type ⟨.HTTP_GET, "/app.js", []⟩ "/app.js").2 (by decide)).1
     (".js", "application/javascript") (by decide) (by decide),
   ((C9_content_type ⟨.HTTP_GET, "/README", []⟩ "/README").2 (by decide)).2 (by decide)⟩

/-- C10: user text is embedded verbatim.  For every store and every stored message
    (display index `k`, text `t = uploadedTexts[k-1]`) the `/api/texts` body contains
    the contiguous fragment `{"id":k,"text":"t` and the `/texts` body contains
    `<p>"t"</p>`, with `t` unmodified.  Consequently, when the only message is the text
    consisting of one double quote, the `/api/texts` body is not a well-formed JSON
    document, with whatever fuel the recogniser is run. -/
theorem C10_text_verbatim (st : Store) (env : Env) (k : Nat)
    (hk1 : 1 ≤ k) (hk2 : k ≤ st.textCount) :
    (("\x7b\"id\":" ++ toString k ++ ",\"text\":\"" ++ st.uploadedTexts.getD (k - 1) "").data
      <:+: (handleAPI env st).body.data) ∧
    (("<p>\"" ++ st.uploadedTexts.getD (k - 1) "" ++ "\"</p>").data
      <:+: (handleTextList st).body.data) ∧
    (handleAPI Env.idle (run Store.init [⟨Env.idle, uploadOf "\""⟩])).body =
      "\x7b\"texts\":[\x7b\"id\":1,\"text\":\"\"\",\"timestamp\":\"0\"\x7d],\"total\":1,\"connected_devices\":0\x7d" ∧
    (∀ fuel : Nat, isJsonWithFuel fuel
      (handleAPI Env.idle (run Store.init [⟨Env.idle, uploadOf "\""⟩])).body = false) := by
  have hk : k - 1 + 1 = k := by omega
  have hlt : k - 1 < st.textCount := by omega
  refine ⟨?_, ?_, by decide, ?_⟩
  · have hmem : apiEntry env (k - 1) (st.uploadedTexts.getD (k - 1) "") ∈ apiEntries env st :=
      List.mem_map.2 ⟨k - 1, List.mem_range.2 hlt, rfl⟩
    obtain ⟨a, b, hab⟩ := intercalate_split "," _ _ hmem
    have hlit : ",\"text\":\"" = "," ++ "\"text\":\"" := by decide
    apply infix_of_eq_append _ ("\x7b\"texts\":[" ++ a)
      (("\"," ++ ("\"timestamp\":\"" ++ toString (env.millis (k - 1)) ++ "\"\x7d")) ++
        (b ++ apiTail env st.textCount))
    rw [handleAPI_body, hab, hlit]
    simp only [apiEntry, hk, String.append_assoc]
  · have h0 : st.textCount ≠ 0 := by omega
    have hmem : ListingEntry.render
        { index := k - 1 + 1, latest := decide (k - 1 = st.textCount - 1),
          text := st.uploadedTexts.getD (k - 1) "" } ∈ (listing st).map ListingEntry.render := by
      apply List.mem_map_of_mem
      exact List.mem_map.2 ⟨k - 1, List.mem_reverse.2 (List.mem_range.2 hlt), rfl⟩
    obtain ⟨a, b, hab⟩ := join_split _ _ hmem
    apply infix_of_eq_append _
      (textListHead st ++ ("<div style='padding:25px;'>" ++ ("<div class='text-list'>" ++
        (a ++ ("<div class='text-item'>" ++ (("<h3>Message #" ++ toString (k - 1 + 1)) ++
          ((if decide (k - 1 = st.textCount - 1) = true then
              " <span style='color:var(--accent);'>• Latest</span>" else "") ++ "</h3>")))))))
      ("</div>" ++ (b ++ ("</div></div>" ++ textListFoot "")))
    rw [handleTextList_body, hab]
    simp only [h0, if_false, ListingEntry.render, textItem, String.append_assoc]
  · intro fuel
    match fuel with
    | 0 => decide
    | 1 => decide
    | 2 => decide
    | 3 => decide
    | 4 => decide
    | 5 => decide
    | 6 => decide
    | 7 => decide
    | n + 8 => rfl

/-- Witness for C10: the second of three stored messages, which contains markup and a
    double quote. -/
theorem C10_text_verbatim_witness :
    (1 ≤ 2 ∧ 2 ≤ (run Store.init [⟨Env.idle, uploadOf "a"⟩,
      ⟨Env.idle, uploadOf "<b>\"hi\"</b>"⟩, ⟨Env.idle, uploadOf "c"⟩]).textCount) ∧
    (("\x7b\"id\":" ++ toString 2 ++ ",\"text\":\"" ++
        (run Store.init [⟨Env.idle, uploadOf "a"⟩, ⟨Env.idle, uploadOf "<b>\"hi\"</b>"⟩,
          ⟨Env.idle, uploadOf "c"⟩]).uploadedTexts.getD (2 - 1) "").data <:+:
      (handleAPI Env.idle (run Store.init [⟨Env.idle, uploadOf "a"⟩,
        ⟨Env.idle, uploadOf "<b>\"hi\"</b>"⟩, ⟨Env.idle, uploadOf "c"⟩])).body.data) ∧
    (run Store.init [⟨Env.idle, uploadOf "a"⟩, ⟨Env.idle, uploadOf "<b>\"hi\"</b>"⟩,
      ⟨Env.idle, uploadOf "c"⟩]).uploadedTexts.getD (2 - 1) "" = "<b>\"hi\"</b>" :=
  ⟨by decide,
   (C10_text_verbatim (run Store.init [⟨Env.idle, uploadOf "a"⟩,
      ⟨Env.idle, uploadOf "<b>\"hi\"</b>"⟩, ⟨Env.idle, uploadOf "c"⟩])
      Env.idle 2 (by decide) (by decide)).1,
   by decide⟩

end ArtBeacon
